import Mathlib

/-
Verification development for the window-layout core of the cwc compositor
(container state machine, tag/workspace addressing, frame-sync engine and
output lifecycle). The C sources embedded here are src/layout/container.c,
src/desktop/output.c and src/desktop/toplevel.c together with the inline
helpers of include/cwc/desktop/toplevel.h. Code that lives in headers or
translation units not present in the tree (container.h, output.h, bsp.c,
master.c, transaction.c, util.h) is modelled from the specification; each
such definition carries a doc comment saying so.

Modelling conventions:
- machine integers become Int (C int) or Nat (unsigned bitfields, serials);
  doubles become Rat;
- wlroots scene-graph plumbing (node reparenting, clipping, buffer drawing),
  Lua signals and seat focus are external collaborators and are not part of
  the modelled state; comments mark every such elision;
- work queued to the event loop with wl_event_loop_add_idle is asynchronous
  and therefore not executed by the synchronous operations modelled here;
- wlr configure serials are abstracted by a monotone counter next_serial;
  BSP strategy handles by (id, enabled) pairs allocated from next_bsp_id.
-/

namespace Cwc

/-- Modelled from the spec: util.h is not under src/. Standard C MAX macro. -/
def MAX {α : Type} [LinearOrder α] (a b : α) : α := if a > b then a else b

/-- Modelled from the spec: util.h is not under src/. Standard C MIN macro. -/
def MIN {α : Type} [LinearOrder α] (a b : α) : α := if a < b then a else b

/-- Modelled from the spec: util.h is not under src/. Standard C CLAMP macro,
clamping x into the inclusive range [lo, hi] (spec section 7d: configuration
errors are clamped to valid ranges). -/
def CLAMP {α : Type} [LinearOrder α] (x lo hi : α) : α :=
  if x > hi then hi else if x < lo then lo else x

/-- wlr_box from wlroots (x, y, width, height), C ints. -/
structure WlrBox where
  x : Int := 0
  y : Int := 0
  width : Int := 0
  height : Int := 0
deriving DecidableEq

/-- Modelled from the spec: bsp.c is not under src/. A layout-strategy handle
(section 4.3): a node reference that participates in the tree and can be
enabled or disabled without removal. The id stands for pointer identity. -/
structure BspNodeRef where
  id : Nat
  enabled : Bool
deriving DecidableEq

/-- Modelled from the spec: container.h is not under src/. The container state
bitfield, a set drawn from {FLOATING, MAXIMIZED, FULLSCREEN, MINIMIZED,
STICKY, UNMANAGED} (spec section 3). -/
structure ContainerState where
  floating : Bool := false
  maximized : Bool := false
  fullscreen : Bool := false
  minimized : Bool := false
  sticky : Bool := false
  unmanaged : Bool := false
deriving DecidableEq

/-- Layout mode constants. Modelled from the spec (section 3): the enum has the
three modes floating, master-stack and BSP plus a length sentinel; output.h
with the concrete enum is not under src/. The claims depend only on
CWC_LAYOUT_LENGTH bounding the valid values. -/
def CWC_LAYOUT_FLOATING : Int := 0

def CWC_LAYOUT_MASTER : Int := 1

def CWC_LAYOUT_BSP : Int := 2

def CWC_LAYOUT_LENGTH : Int := 3

/-- wlr_edges constants from wlroots (util/edges.h). -/
def WLR_EDGE_NONE : Nat := 0

def WLR_EDGE_TOP : Nat := 1

def WLR_EDGE_BOTTOM : Nat := 2

def WLR_EDGE_LEFT : Nat := 4

def WLR_EDGE_RIGHT : Nat := 8

/-- One client window (struct cwc_toplevel, toplevel.h), restricted to the
fields the embedded operations read or write. geometry is the
client-committed xdg surface geometry; requested_w/h and tiled_edges are the
protocol state last sent to the client; resize_serial is the pending
configure serial (0 = none). -/
structure Toplevel where
  id : Nat
  is_x11 : Bool := false
  mapped : Bool := true
  geometry : WlrBox := {}
  min_width : Int := 0
  min_height : Int := 0
  resize_serial : Nat := 0
  resizing : Bool := false
  supports_tiled_protocol : Bool := true
  tiled_edges : Nat := 0
  requested_w : Int := 0
  requested_h : Int := 0
  suspended : Bool := false
  scene_enabled : Bool := true
  sent_fullscreen : Bool := false
  sent_maximized : Bool := false
deriving DecidableEq

/-- Per (output, workspace) configuration (struct cwc_tag_info; output.h is not
under src/, the fields are modelled from the spec section 3 and from their
uses in output.c). Defaults are the all-zero calloc state. -/
structure TagInfo where
  index : Nat := 0
  layout_mode : Int := 0
  useless_gaps : Int := 0
  pending_transaction : Bool := false
  master_mwfact : Rat := 0
  master_count : Int := 0
  column_count : Int := 0
deriving DecidableEq

/-- Detached per-output state that survives output destruction (struct
cwc_output_state). tag_info is the per-workspace TagInfo array, modelled as a
total function on workspace indices. -/
structure OutputState where
  active_tag : Nat := 1
  active_workspace : Nat := 1
  max_general_workspace : Nat := 9
  tag_info : Nat → TagInfo

/-- struct timespec. -/
structure Timespec where
  tv_sec : Nat := 0
  tv_nsec : Nat := 0
deriving DecidableEq

/-- A physical display (struct cwc_output) with its owned state.
pending_layout is the per-output pending flag set by
transaction_schedule_output (spec section 4.4). -/
structure OutputData where
  name : String := ""
  enabled : Bool := true
  restored : Bool := false
  pending_layout : Bool := false
  usable_area : WlrBox := {}
  output_layout_box : WlrBox := {}
  waiting_since : Timespec := {}
  state : OutputState

/-- The old-placement record used during output migration (struct old_output,
container.h is not under src/; fields modelled from their uses in
output.c: cwc_output_rescue_toplevel_container and cwc_output_restore). -/
structure OldProp where
  output : Option Nat := none
  bsp_node : Option BspNodeRef := none
  workspace : Nat := 0
  tag : Nat := 0
deriving DecidableEq

/-- The layout unit (struct cwc_container). toplevels is the membership list
cwc_container.toplevels in list order (most recently inserted first); stack
is the scene-tree children order of the toplevel surf trees, bottom to top
(the popup tree always sits above it), holding toplevel ids. destroyed
records that cwc_container_fini ran. -/
structure Container where
  id : Nat
  output : Nat
  workspace : Nat := 1
  tag : Nat := 1
  state : ContainerState := {}
  x : Int := 0
  y : Int := 0
  width : Int := 0
  height : Int := 0
  floating_box : WlrBox := {}
  bsp_node : Option BspNodeRef := none
  border_valid : Bool := true
  border_enabled : Bool := true
  border_thickness : Int := 0
  border_width : Int := 0
  border_height : Int := 0
  fullscreen_bg : Bool := false
  scene_enabled : Bool := true
  in_minimized_list : Bool := false
  moving : Bool := false
  old_prop : OldProp := {}
  toplevels : List Toplevel := []
  stack : List Nat := []
  destroyed : Bool := false
deriving DecidableEq

/-- Compile-time constants of the build and the static output-layout geometry.
MAX_WORKSPACE and MIN_WIDTH live in headers not under src/ and are left as
parameters; output_at abstracts wlr_output_layout_output_at (which output
contains a layout point). -/
structure Env where
  MAX_WORKSPACE : Nat := 30
  MIN_WIDTH : Int := 20
  config_useless_gaps : Int := 0
  output_at : Int → Int → Option Nat

/-- The global server state (struct cwc_server) restricted to the layout core:
the output registry, the container list, the frame-sync counter resize_count
and the allocation counters for configure serials and BSP nodes. live is
server.outputs (ids, list order, newest first); state_cache is the
name-keyed output_state_cache, an entry pointing at the old output id whose
OutputData retains the saved state. -/
structure World where
  outputs : Nat → OutputData
  live : List Nat := []
  fallback : Nat := 0
  focused : Nat := 0
  containers : List Container := []
  state_cache : List (String × Nat) := []
  resize_count : Int := 0
  next_serial : Nat := 1
  next_bsp_id : Nat := 1

/-- Modelled from the spec: container.h is not under src/. Membership test for
MAXIMIZED in the container state set (spec sections 3 and 4.1). -/
def cwc_container_is_maximized (c : Container) : Bool := c.state.maximized

/-- Modelled from the spec: container.h is not under src/. Membership test for
FULLSCREEN in the container state set. -/
def cwc_container_is_fullscreen (c : Container) : Bool := c.state.fullscreen

/-- Modelled from the spec: container.h is not under src/. Membership test for
MINIMIZED in the container state set. -/
def cwc_container_is_minimized (c : Container) : Bool := c.state.minimized

/-- Modelled from the spec: container.h is not under src/. Membership test for
STICKY in the container state set. -/
def cwc_container_is_sticky (c : Container) : Bool := c.state.sticky

/-- Modelled from the spec: container.h is not under src/. Membership test for
UNMANAGED in the container state set. -/
def cwc_container_is_unmanaged (c : Container) : Bool := c.state.unmanaged

/-- Modelled from the spec: container.h is not under src/. The
"configure-allowed" guard of spec section 4.2: allowed only if neither
Maximized nor Fullscreen (mirrors cwc_toplevel_is_configure_allowed in
toplevel.h, which is in the tree). -/
def cwc_container_is_configure_allowed (c : Container) : Bool :=
  !cwc_container_is_fullscreen c && !cwc_container_is_maximized c

/-- Modelled from the spec: container.h is not under src/. Whether an
interactive cursor grab is moving this container (read in
__cwc_container_move_to_output). -/
def cwc_container_is_moving (c : Container) : Bool := c.moving

/-- Modelled from the spec: output.h is not under src/. Accessor for the
TagInfo of one workspace of an output (used as cwc_output_get_tag). -/
def cwc_output_get_tag (w : World) (o : Nat) (workspace : Nat) : TagInfo :=
  (w.outputs o).state.tag_info workspace

/-- Modelled from the spec: output.h is not under src/. TagInfo of the active
workspace of an output (used as cwc_output_get_current_tag_info). -/
def cwc_output_get_current_tag_info (w : World) (o : Nat) : TagInfo :=
  cwc_output_get_tag w o ((w.outputs o).state.active_workspace)

/-- Modelled from the spec: output.h is not under src/. Whether the active
workspace of the output currently uses the BSP layout (used by
cwc_container_set_floating). -/
def cwc_output_is_current_layout_bsp (w : World) (o : Nat) : Bool :=
  (cwc_output_get_current_tag_info w o).layout_mode == CWC_LAYOUT_BSP

/-- Modelled from the spec: transaction.c is not under src/.
transaction_schedule_tag marks the per-workspace pending flag of the given
TagInfo; a later coalescing pass outside the modelled operations turns it
into a recompute (spec section 4.4). -/
def transaction_schedule_tag (w : World) (o : Nat) (workspace : Nat) : World :=
  let od := w.outputs o
  let st := od.state
  let st' := { st with tag_info := fun i =>
    (if i = workspace then { st.tag_info i with pending_transaction := true }
     else st.tag_info i) }
  { w with outputs := Function.update w.outputs o { od with state := st' } }

/-- Modelled from the spec: transaction.c is not under src/.
transaction_schedule_output marks the per-output pending flag (spec section
4.4). -/
def transaction_schedule_output (w : World) (o : Nat) : World :=
  let od := w.outputs o
  { w with outputs := Function.update w.outputs o { od with pending_layout := true } }

/-- Modelled from the spec: bsp.c is not under src/. insert(container) of the
strategy contract (spec section 4.3): registers the container with the
workspace's tree and hands it a fresh enabled node handle. The tree's
geometry recomputation happens in the coalescing pass, outside the modelled
operations. -/
def bsp_insert_container (w : World) (c : Container) (_workspace : Nat) :
    World × Container :=
  ({ w with next_bsp_id := w.next_bsp_id + 1 },
   { c with bsp_node := some ⟨w.next_bsp_id, true⟩ })

/-- Modelled from the spec: bsp.c is not under src/. remove(container,
preserve_membership) of the strategy contract: the node leaves the tree and
the container's handle is cleared. -/
def bsp_remove_container (w : World) (c : Container) (_preserve : Bool) :
    World × Container :=
  (w, { c with bsp_node := none })

/-- Writes the enabled bit of the node a captured pointer refers to: a no-op
when the container's current handle is a different (or no) node, matching
the pointer semantics of bsp_node_enable/disable on a stale reference. -/
def bsp_node_set_enabled_id (nid : Nat) (e : Bool) (c : Container) : Container :=
  match c.bsp_node with
  | some n => if n.id = nid then { c with bsp_node := some { n with enabled := e } } else c
  | none => c

/-- Modelled from the spec: bsp.c is not under src/. disable(handle): the node
stays in the tree but stops participating (spec section 4.3). Applied to the
container's current handle. -/
def bsp_node_disable (c : Container) : Container :=
  match c.bsp_node with
  | some n => { c with bsp_node := some { n with enabled := false } }
  | none => c

/-- Modelled from the spec: bsp.c is not under src/. enable(handle): the node
participates again. Applied to the container's current handle. -/
def bsp_node_enable (c : Container) : Container :=
  match c.bsp_node with
  | some n => { c with bsp_node := some { n with enabled := true } }
  | none => c

/-- cwc_toplevel_is_unmanaged (toplevel.h): constantly false in this build. -/
def cwc_toplevel_is_unmanaged (_t : Toplevel) : Bool := false

/-- cwc_toplevel_get_geometry (toplevel.c): the xdg surface geometry. -/
def cwc_toplevel_get_geometry (t : Toplevel) : WlrBox := t.geometry

/-- cwc_toplevel_set_size (toplevel.h): wlr_xdg_toplevel_set_size, which
schedules a configure and returns its serial; the serial allocator is
abstracted by the monotone counter next_serial. -/
def cwc_toplevel_set_size (w : World) (t : Toplevel) (tw th : Int) :
    World × Toplevel × Nat :=
  ({ w with next_serial := w.next_serial + 1 },
   { t with requested_w := tw, requested_h := th },
   w.next_serial)

/-- cwc_toplevel_set_tiled (toplevel.c): sends the tiled edges when the client
speaks a recent enough xdg-shell, else falls back to the maximized hint. -/
def cwc_toplevel_set_tiled (t : Toplevel) (edges : Nat) : Toplevel :=
  if t.supports_tiled_protocol then { t with tiled_edges := edges }
  else { t with sent_maximized := edges != WLR_EDGE_NONE }

/-- __cwc_toplevel_set_minimized (toplevel.h): forwards to
wlr_xdg_toplevel_set_suspended. -/
def __cwc_toplevel_set_minimized (t : Toplevel) (set : Bool) : Toplevel :=
  { t with suspended := set }

/-- __cwc_toplevel_set_fullscreen (toplevel.h): forwards the fullscreen state
to the client. -/
def __cwc_toplevel_set_fullscreen (t : Toplevel) (set : Bool) : Toplevel :=
  { t with sent_fullscreen := set }

/-- __cwc_toplevel_set_maximized (toplevel.h): forwards the maximized state to
the client. -/
def __cwc_toplevel_set_maximized (t : Toplevel) (set : Bool) : Toplevel :=
  { t with sent_maximized := set }

/-- cwc_container_is_floating (container.c line 1057): the FLOATING bit, or the
container's workspace currently using the floating layout mode. -/
def cwc_container_is_floating (w : World) (c : Container) : Bool :=
  c.state.floating
  || ((w.outputs c.output).state.tag_info c.workspace).layout_mode == CWC_LAYOUT_FLOATING

/-- is_border_valid (container.c): all four border buffers allocated,
abstracted to one flag. -/
def is_border_valid (c : Container) : Bool := c.border_valid

/-- cwc_border_get_thickness (container.c line 445): 0 when the border is
disabled. -/
def cwc_border_get_thickness (c : Container) : Int :=
  if !c.border_enabled then 0 else c.border_thickness

/-- cwc_border_set_enabled (container.c line 383): flips the scene nodes and
the flag, repositions the client trees (scene-internal) and schedules the
owning workspace's transaction. -/
def cwc_border_set_enabled (w : World) (c : Container) (enabled : Bool) :
    World × Container :=
  if !is_border_valid c then (w, c)
  else
    let c := { c with border_enabled := enabled }
    (transaction_schedule_tag w c.output ((w.outputs c.output).state.active_workspace), c)

/-- cwc_border_resize (container.c line 453): records the new rectangle and
redraws (drawing is rendering-side); no-op when the size is unchanged or the
border is invalid. -/
def cwc_border_resize (c : Container) (rect_w rect_h : Int) : Container :=
  if !is_border_valid c then c
  else if c.border_width == rect_w && c.border_height == rect_h then c
  else { c with border_width := rect_w, border_height := rect_h }

/-- cwc_container_get_box (container.c line 908): scene position plus stored
size. -/
def cwc_container_get_box (c : Container) : WlrBox :=
  { x := c.x, y := c.y, width := c.width, height := c.height }

/-- cwc_container_get_front_toplevel (container.c line 918): walks the scene
children top to bottom and returns the first toplevel, i.e. the topmost
entry of the stack. -/
def cwc_container_get_front_toplevel (c : Container) : Option Toplevel :=
  match c.stack.getLast? with
  | some tid => c.toplevels.find? (fun t => t.id == tid)
  | none => none

/-- cwc_container_is_visible (container.c line 1504): sticky wins, then a
blank active tag or minimization hides, otherwise the bitwise tag test. -/
def cwc_container_is_visible (w : World) (c : Container) : Bool :=
  if cwc_container_is_sticky c then true
  else if (w.outputs c.output).state.active_tag == 0 || cwc_container_is_minimized c then
    false
  else (w.outputs c.output).state.active_tag &&& c.tag != 0

/-- cwc_container_is_visible_in_workspace (container.c line 1516). -/
def cwc_container_is_visible_in_workspace (w : World) (c : Container)
    (workspace : Nat) : Bool :=
  if (w.outputs c.output).state.active_workspace == 0
     || (w.outputs c.output).state.active_tag == 0
     || cwc_container_is_minimized c then false
  else workspace == c.workspace

/-- cwc_container_is_currently_tiled (container.c line 1527). -/
def cwc_container_is_currently_tiled (w : World) (c : Container) : Bool :=
  !(cwc_container_is_fullscreen c || cwc_container_is_maximized c
    || cwc_container_is_minimized c || cwc_container_is_floating w c)

/-- cwc_toplevel_is_visible (toplevel.c line 1192): the container is visible
and the toplevel is its front member. -/
def cwc_toplevel_is_visible (w : World) (c : Container) (t : Toplevel) : Bool :=
  cwc_container_is_visible w c
  && ((cwc_container_get_front_toplevel c).map Toplevel.id == some t.id)

/-- cwc_output_is_exist (output.c line 1078): membership in server.outputs. -/
def cwc_output_is_exist (w : World) (o : Nat) : Bool := w.live.contains o

/-- Applies an update to the member toplevel with the given id (pointer
mutation of a list member). -/
def updateToplevel (c : Container) (tid : Nat) (f : Toplevel → Toplevel) : Container :=
  { c with toplevels := c.toplevels.map (fun t => if t.id == tid then f t else t) }

/-- all_toplevel_set_size (container.c line 1305): one step of the
bottom-to-top resize pass. rect is the shared wlr_box the C code threads
through the iteration (its width/height fields). Early-returns for a
non-x11 toplevel whose committed geometry already matches, otherwise clamps
floating xdg toplevels to their minimum size, bumps the outstanding resize
count for a visible xdg toplevel with no pending serial, and requests the
new size (recording the configure serial). Clipping is scene-internal. -/
def all_toplevel_set_size (w : World) (c : Container) (rect : Int × Int)
    (t : Toplevel) : World × (Int × Int) × Toplevel :=
  let geom := cwc_toplevel_get_geometry t
  let surf_w := rect.1
  let surf_h := rect.2
  let t :=
    if cwc_container_is_floating w c then cwc_toplevel_set_tiled t 0
    else cwc_toplevel_set_tiled t
      (WLR_EDGE_TOP ||| WLR_EDGE_BOTTOM ||| WLR_EDGE_LEFT ||| WLR_EDGE_RIGHT)
  if !t.is_x11 && geom.width == surf_w && geom.height == surf_h then (w, rect, t)
  else
    let sw : Int × Int :=
      if !t.is_x11 && cwc_container_is_floating w c then
        (MAX surf_w t.min_width, MAX surf_h t.min_height)
      else (surf_w, surf_h)
    let w :=
      if !t.is_x11 && cwc_toplevel_is_visible w c t && t.resize_serial == 0 then
        { w with resize_count := MAX 1 (w.resize_count + 1) }
      else w
    let r := cwc_toplevel_set_size w t sw.1 sw.2
    let t := { r.2.1 with resize_serial := r.2.2 }
    (r.1, (sw.1, sw.2), t)

/-- cwc_container_should_save_floating_box (container.c line 1354). -/
def cwc_container_should_save_floating_box (w : World) (c : Container) : Bool :=
  cwc_container_is_floating w c && !cwc_container_is_fullscreen c
  && !cwc_container_is_maximized c

/-- save_floating_box_position (container.c line 1362). -/
def save_floating_box_position (w : World) (c : Container) (px py : Int) : Container :=
  if cwc_container_should_save_floating_box w c then
    { c with floating_box := { c.floating_box with x := px, y := py } }
  else c

/-- save_floating_box_size (container.c line 1371). -/
def save_floating_box_size (w : World) (c : Container) (sw sh : Int) : Container :=
  if cwc_container_should_save_floating_box w c then
    { c with floating_box := { c.floating_box with width := sw, height := sh } }
  else c

/-- cwc_container_set_size (container.c line 1394): derives the inner surface
size from gaps and border thickness (floored at MIN_WIDTH), runs the
bottom-to-top resize pass over the scene stack, resizes the border to the
resulting rectangle, saves the floating box size, and stores the final
container size including gaps. This definition is the per-node body of the
cwc_container_for_each_bottom_to_top walk: look the node's toplevel up and
run all_toplevel_set_size on it, threading the shared rect. -/
def set_size_fold_step (acc : World × (Int × Int) × Container) (tid : Nat) :
    World × (Int × Int) × Container :=
  match acc.2.2.toplevels.find? (fun t => t.id == tid) with
  | none => acc
  | some t =>
    let r := all_toplevel_set_size acc.1 acc.2.2 acc.2.1 t
    (r.1, r.2.1, updateToplevel acc.2.2 tid (fun _ => r.2.2))

/-- cwc_container_set_size (container.c line 1394), continued: see the doc of
set_size_fold_step above for the per-node body. -/
def cwc_container_set_size (env : Env) (w : World) (c : Container)
    (cw ch : Int) : World × Container :=
  let gaps := (cwc_output_get_current_tag_info w c.output).useless_gaps
  let bw := cwc_border_get_thickness c
  let outside_width := (bw + gaps) * 2
  let surface_w := MAX (cw - outside_width) env.MIN_WIDTH
  let surface_h := MAX (ch - outside_width) env.MIN_WIDTH
  let folded := c.stack.foldl set_size_fold_step (w, (surface_w, surface_h), c)
  let w := folded.1
  let rect := folded.2.1
  let c := folded.2.2
  let cont_w := rect.1 + bw * 2
  let cont_h := rect.2 + bw * 2
  let c := cwc_border_resize c cont_w cont_h
  let c := save_floating_box_size w c cw ch
  let cont_w := cont_w + gaps * 2
  let cont_h := cont_h + gaps * 2
  (w, { c with width := cont_w, height := cont_h })

/-- __cwc_container_move_to_output (container.c line 792), synchronous part:
re-homes the container into the target output's lists, adopts the target's
active tag and workspace, moves the strategy handle, and schedules both
workspaces. The _delayed_max_full and _delayed_translate continuations are
queued to the event loop and thus outside the modelled synchronous state
change; per-output toplevel list and foreign-handle updates are external
bookkeeping. -/
def __cwc_container_move_to_output (w : World) (c : Container) (target : Nat)
    (translate : Bool) : World × Container :=
  if c.output == target then (w, c)
  else
    let old := c.output
    let output_workspace := (w.outputs target).state.active_workspace
    let layout := ((w.outputs target).state.tag_info output_workspace).layout_mode
    let floating := cwc_container_is_floating w c || layout == CWC_LAYOUT_FLOATING
    let wc := if c.bsp_node.isSome then bsp_remove_container w c false else (w, c)
    let w := wc.1
    let c := { wc.2 with
      output := target
      tag := (w.outputs target).state.active_tag
      workspace := output_workspace }
    let w := transaction_schedule_tag w old ((w.outputs old).state.active_workspace)
    let w := transaction_schedule_tag w target ((w.outputs target).state.active_workspace)
    let wc :=
      if !floating && layout == CWC_LAYOUT_BSP && !cwc_container_is_moving c
         && c.old_prop.output == none then
        bsp_insert_container w c output_workspace
      else (w, c)
    let _ := translate
    wc

/-- cwc_container_move_to_output_without_translate (container.c line 863). -/
def cwc_container_move_to_output_without_translate (w : World) (c : Container)
    (target : Nat) : World × Container :=
  __cwc_container_move_to_output w c target false

/-- cwc_container_move_to_output (container.c line 869). -/
def cwc_container_move_to_output (w : World) (c : Container) (target : Nat) :
    World × Container :=
  __cwc_container_move_to_output w c target true

/-- update_container_output (container.c line 1381): if the container's center
now lies on a different output, migrate it there without translation. -/
def update_container_output (env : Env) (w : World) (c : Container) :
    World × Container :=
  let box := cwc_container_get_box c
  let cx := box.x + Int.tdiv box.width 2
  let cy := box.y + Int.tdiv box.height 2
  match env.output_at cx cy with
  | none => (w, c)
  | some o =>
    if o == c.output then (w, c)
    else cwc_container_move_to_output_without_translate w c o

/-- cwc_container_set_position_global (container.c line 1421). -/
def cwc_container_set_position_global (env : Env) (w : World) (c : Container)
    (px py : Int) : World × Container :=
  let c := { c with x := px, y := py }
  let c := save_floating_box_position w c px py
  update_container_output env w c

/-- cwc_container_set_position (container.c line 1443): output-relative
coordinates shifted by the output's layout box. -/
def cwc_container_set_position (env : Env) (w : World) (c : Container)
    (px py : Int) : World × Container :=
  cwc_container_set_position_global env w c
    (px + (w.outputs c.output).output_layout_box.x)
    (py + (w.outputs c.output).output_layout_box.y)

/-- cwc_container_restore_floating_box (container.c line 1497). -/
def cwc_container_restore_floating_box (env : Env) (w : World) (c : Container) :
    World × Container :=
  let fb := c.floating_box
  let wc := cwc_container_set_position_global env w c fb.x fb.y
  cwc_container_set_size env wc.1 wc.2 fb.width fb.height

/-- all_toplevel_set_floating (container.c line 1087). -/
def all_toplevel_set_floating (set : Bool) (t : Toplevel) : Toplevel :=
  if set then cwc_toplevel_set_tiled t 0
  else cwc_toplevel_set_tiled t
    (WLR_EDGE_TOP ||| WLR_EDGE_BOTTOM ||| WLR_EDGE_LEFT ||| WLR_EDGE_RIGHT)

/-- cwc_container_set_floating (container.c line 1100): guarded by
configure-allowed; turning on restores the floating box, sets the flag and
disables any strategy handle; turning off clears the flag and re-enables or
(if the workspace is BSP) inserts a handle; both retile every member
toplevel and schedule the workspace. -/
def cwc_container_set_floating (env : Env) (w : World) (c : Container)
    (set : Bool) : World × Container :=
  if !cwc_container_is_configure_allowed c then (w, c)
  else
    let wc :=
      if set then
        let wc := cwc_container_restore_floating_box env w c
        let c := { wc.2 with state := { wc.2.state with floating := true } }
        let c := if c.bsp_node.isSome then bsp_node_disable c else c
        (wc.1, c)
      else if cwc_container_is_floating w c then
        let c := { c with state := { c.state with floating := false } }
        if c.bsp_node.isSome then (w, bsp_node_enable c)
        else if cwc_output_is_current_layout_bsp w c.output then
          bsp_insert_container w c c.workspace
        else (w, c)
      else (w, c)
    let w := wc.1
    let c := { wc.2 with toplevels := wc.2.toplevels.map (all_toplevel_set_floating set) }
    let w := transaction_schedule_tag w c.output ((w.outputs c.output).state.active_workspace)
    (w, c)

/-- cwc_container_set_sticky (container.c line 1133). -/
def cwc_container_set_sticky (w : World) (c : Container) (set : Bool) :
    World × Container :=
  if set then (w, { c with state := { c.state with sticky := true } })
  else
    let c := { c with state := { c.state with sticky := false } }
    (transaction_schedule_output w c.output, c)

/-- cwc_toplevel_set_size_surface (toplevel.c line 1039): resizes the owning
container so that the inner surface gets the requested size. -/
def cwc_toplevel_set_size_surface (env : Env) (w : World) (c : Container)
    (sw sh : Int) : World × Container :=
  let gaps := (cwc_output_get_current_tag_info w c.output).useless_gaps
  let outside_width := (cwc_border_get_thickness c + gaps) * 2
  cwc_container_set_size env w c (sw + outside_width) (sh + outside_width)

/-- cwc_toplevel_set_position (toplevel.c line 1050): moves the owning
container so the surface lands at the given output-relative point. -/
def cwc_toplevel_set_position (env : Env) (w : World) (c : Container)
    (px py : Int) : World × Container :=
  let bw := cwc_border_get_thickness c
  cwc_container_set_position env w c (px - bw) (py - bw)

/-- Iterates cwc_container_for_each_toplevel (container.c line 895, the
membership list, safe variant) with a body that may mutate the world and the
container; the iteration works off the snapshot of member ids taken at
entry, matching the safe list walk. -/
def for_each_toplevel_fold (w : World) (c : Container)
    (f : World → Container → Toplevel → World × Container) : World × Container :=
  (c.toplevels.map Toplevel.id).foldl
    (fun acc tid =>
      match acc.2.toplevels.find? (fun t => t.id == tid) with
      | none => acc
      | some t => f acc.1 acc.2 t)
    (w, c)

/-- all_toplevel_set_fullscreen (container.c line 1144): on enter, resize the
toplevel surface to the full output box and move it to the origin (clipping
reset is scene-internal); always forward the fullscreen state to the client
(foreign-toplevel handles are external). -/
def all_toplevel_set_fullscreen (env : Env) (set : Bool) (w : World)
    (c : Container) (t : Toplevel) : World × Container :=
  let wc :=
    if set then
      let ob := (w.outputs c.output).output_layout_box
      let wc := cwc_toplevel_set_size_surface env w c ob.width ob.height
      cwc_toplevel_set_position env wc.1 wc.2 0 0
    else (w, c)
  (wc.1, updateToplevel wc.2 t.id (fun t => __cwc_toplevel_set_fullscreen t set))

/-- all_toplevel_set_maximized (container.c line 1209): forward the maximized
state; on enter, resize the toplevel surface to the usable area and move it
there (clipping reset is scene-internal; foreign handles external). -/
def all_toplevel_set_maximized (env : Env) (set : Bool) (w : World)
    (c : Container) (t : Toplevel) : World × Container :=
  let c := updateToplevel c t.id (fun t => __cwc_toplevel_set_maximized t set)
  if set then
    let ua := (w.outputs c.output).usable_area
    let wc := cwc_toplevel_set_size_surface env w c ua.width ua.height
    cwc_toplevel_set_position env wc.1 wc.2 ua.x ua.y
  else (w, c)

/-- all_toplevel_set_minimized (container.c line 1262): suspend or resume each
member (foreign handles external). -/
def all_toplevel_set_minimized (set : Bool) (t : Toplevel) : Toplevel :=
  __cwc_toplevel_set_minimized t set

/-- Body of cwc_container_set_maximized (container.c line 1228) after the
border toggle and the fullscreen-exit special case, with the bsp_node
pointer captured at function entry: set or clear the MAXIMIZED flag,
suspend or resume the strategy handle (restoring the floating box when
floating), resize every member, and schedule the workspace. -/
def cwc_container_set_maximized_body (env : Env) (w : World) (c : Container)
    (captured : Option BspNodeRef) (set : Bool) : World × Container :=
  let wc :=
    if set then
      let c := { c with state := { c.state with maximized := true } }
      let c := match captured with
        | some n => bsp_node_set_enabled_id n.id false c
        | none => c
      (w, c)
    else
      let c := { c with state := { c.state with maximized := false } }
      if cwc_container_is_floating w c then cwc_container_restore_floating_box env w c
      else if c.bsp_node.isSome then
        (w, match captured with
            | some n => bsp_node_set_enabled_id n.id true c
            | none => c)
      else (w, c)
  let wc := for_each_toplevel_fold wc.1 wc.2 (all_toplevel_set_maximized env set)
  let w := transaction_schedule_tag wc.1 wc.2.output
    ((wc.1.outputs wc.2.output).state.active_workspace)
  (w, wc.2)

/-- cwc_container_set_maximized specialized to a container that is not
fullscreen at entry (the call made from the fullscreen-exit path of
cwc_container_set_fullscreen, where the FULLSCREEN flag was just cleared,
always hits this case; see cwc_container_set_maximized_eq_nofs). -/
def cwc_container_set_maximized_nofs (env : Env) (w : World) (c : Container)
    (set : Bool) : World × Container :=
  let captured := c.bsp_node
  let wc := cwc_border_set_enabled w c (!set)
  cwc_container_set_maximized_body env wc.1 wc.2 captured set

/-- cwc_container_set_fullscreen (container.c line 1164): toggles the border,
sets or clears the FULLSCREEN flag first (so sizes are not saved as the
floating box and the strategy allows configuring), suspends or resumes the
strategy handle, creates or destroys the black backdrop, re-enters
Maximized on exit when the MAXIMIZED flag is still set, resizes every
member, and schedules the workspace. -/
def cwc_container_set_fullscreen (env : Env) (w : World) (c : Container)
    (set : Bool) : World × Container :=
  let captured := c.bsp_node
  let wc := cwc_border_set_enabled w c (!set)
  let w := wc.1
  let c := wc.2
  let wc :=
    if set then
      let c := { c with state := { c.state with fullscreen := true } }
      let c := match captured with
        | some n => bsp_node_set_enabled_id n.id false c
        | none => c
      (w, { c with fullscreen_bg := true })
    else
      let c := { c with state := { c.state with fullscreen := false } }
      let wc :=
        if cwc_container_is_floating w c then cwc_container_restore_floating_box env w c
        else if c.bsp_node.isSome then
          (w, match captured with
              | some n => bsp_node_set_enabled_id n.id true c
              | none => c)
        else (w, c)
      let c := if wc.2.fullscreen_bg then { wc.2 with fullscreen_bg := false } else wc.2
      if c.state.maximized then cwc_container_set_maximized_nofs env wc.1 c true
      else (wc.1, c)
  let wc := for_each_toplevel_fold wc.1 wc.2 (all_toplevel_set_fullscreen env set)
  let w := transaction_schedule_tag wc.1 wc.2.output
    ((wc.1.outputs wc.2.output).state.active_workspace)
  (w, wc.2)

/-- cwc_container_set_maximized (container.c line 1228): toggles the border;
when the container is fullscreen, forces set to true and exits fullscreen
first; then runs the shared body on the bsp_node captured at entry. -/
def cwc_container_set_maximized (env : Env) (w : World) (c : Container)
    (set : Bool) : World × Container :=
  let captured := c.bsp_node
  let wc := cwc_border_set_enabled w c (!set)
  let w := wc.1
  let c := wc.2
  if cwc_container_is_fullscreen c then
    let wc := cwc_container_set_fullscreen env w c false
    cwc_container_set_maximized_body env wc.1 wc.2 captured true
  else
    cwc_container_set_maximized_body env w c captured set

/-- cwc_container_set_minimized (container.c line 1273): hides or shows the
container's render subtree, joins or leaves the output's minimized list,
suspends or resumes the strategy handle, toggles the MINIMIZED flag,
suspends or resumes every member, and schedules the workspace (the refocus
of the output's next visible toplevel is seat-side and external). -/
def cwc_container_set_minimized (w : World) (c : Container) (set : Bool) :
    World × Container :=
  let c := { c with scene_enabled := !set }
  let captured := c.bsp_node
  let c :=
    if set then
      let c := { c with in_minimized_list := true }
      let c := match captured with
        | some n => bsp_node_set_enabled_id n.id false c
        | none => c
      { c with state := { c.state with minimized := true } }
    else
      let c := { c with state := { c.state with minimized := false } }
      let c := if c.in_minimized_list then { c with in_minimized_list := false } else c
      match captured with
      | some n => bsp_node_set_enabled_id n.id true c
      | none => c
  let c := { c with toplevels := c.toplevels.map (all_toplevel_set_minimized set) }
  let w := transaction_schedule_tag w c.output ((w.outputs c.output).state.active_workspace)
  (w, c)

/-- _cwc_container_set_initial_state (container.c line 517): the flags a fresh
container inherits from the client's pending requests (the wants_* booleans
are the xdg requested state of the first toplevel). -/
def _cwc_container_set_initial_state (c : Container) (wants_unmanaged
    wants_maximized wants_fullscreen wants_minimized : Bool) : Container :=
  let c := if wants_unmanaged then { c with state := { c.state with unmanaged := true } } else c
  let c := if wants_maximized then { c with state := { c.state with maximized := true } } else c
  if wants_fullscreen then { c with state := { c.state with fullscreen := true } }
  else if wants_minimized then { c with state := { c.state with minimized := true } }
  else c

/-- cwc_container_move_to_tag (container.c line 1535): re-homes the container
to an exact workspace, moving the strategy handle into that workspace's
tree when it uses BSP and the container is not floating, and schedules both
the output and the affected workspaces (property signals are external). -/
def cwc_container_move_to_tag (w : World) (c : Container) (workspace : Nat) :
    World × Container :=
  if c.workspace == workspace then (w, c)
  else
    let wc := if c.bsp_node.isSome then bsp_remove_container w c true else (w, c)
    let w := wc.1
    let newtag : Nat := 1 <<< (workspace - 1)
    let c := { wc.2 with tag := newtag, workspace := workspace }
    let wc :=
      if ((w.outputs c.output).state.tag_info workspace).layout_mode == CWC_LAYOUT_BSP
         && !c.state.floating then
        bsp_insert_container w c workspace
      else (w, c)
    let w := transaction_schedule_output wc.1 wc.2.output
    let w := transaction_schedule_tag w wc.2.output workspace
    let w := transaction_schedule_tag w wc.2.output
      ((w.outputs wc.2.output).state.active_workspace)
    (w, wc.2)

/-- cwc_container_set_front_toplevel (container.c line 937): makes the given
member the visible one — enables and resumes it, reasserts the container
size, raises its surf tree to the top of the stack (directly below the
popup tree) and hides every sibling. -/
def cwc_container_set_front_toplevel (env : Env) (w : World) (c : Container)
    (tid : Nat) : World × Container :=
  match c.toplevels.find? (fun t => t.id == tid) with
  | none => (w, c)
  | some _ =>
    let c := updateToplevel c tid
      (fun t => __cwc_toplevel_set_minimized { t with scene_enabled := true } false)
    let wc := cwc_container_set_size env w c c.width c.height
    let c := { wc.2 with stack := (wc.2.stack.filter (fun i => i != tid)) ++ [tid] }
    let c := { c with toplevels := c.toplevels.map (fun t =>
      if t.id == tid then t
      else __cwc_toplevel_set_minimized { t with scene_enabled := false } true) }
    (wc.1, c)

/-- _cwc_container_insert_toplevel (container.c line 601): refuses unmanaged
parties, links the toplevel at the head of the membership list, (re)parents
its surf tree directly below the popup tree (top of the stack; the
border-offset repositioning is scene-internal) and reasserts the container
size. The emit_signal variant only differs in an external Lua signal. -/
def _cwc_container_insert_toplevel (env : Env) (w : World) (c : Container)
    (t : Toplevel) : World × Container :=
  if cwc_container_is_unmanaged c || cwc_toplevel_is_unmanaged t then (w, c)
  else
    let c := { c with toplevels := t :: c.toplevels, stack := c.stack ++ [t.id] }
    cwc_container_set_size env w c c.width c.height

/-- cwc_container_insert_toplevel (container.c line 629). -/
def cwc_container_insert_toplevel (env : Env) (w : World) (c : Container)
    (t : Toplevel) : World × Container :=
  _cwc_container_insert_toplevel env w c t

/-- cwc_container_insert_toplevel_silence (container.c line 635). -/
def cwc_container_insert_toplevel_silence (env : Env) (w : World) (c : Container)
    (t : Toplevel) : World × Container :=
  _cwc_container_insert_toplevel env w c t

/-- Modelled from the spec: cwc_container_refresh is declared in container.h,
which is not under src/. Per spec section 4.1 the front toplevel is the
visible member and all siblings are hidden; refresh re-asserts that for the
current top of the stack. -/
def cwc_container_refresh (env : Env) (w : World) (c : Container) :
    World × Container :=
  match c.stack.getLast? with
  | some tid => cwc_container_set_front_toplevel env w c tid
  | none => (w, c)

/-- _clear_container_stuff_in_toplevel (container.c line 679): reparent the
surf tree out of the container (it leaves the stack; the temporary scene
tree is external), refresh the container, then unlink the toplevel from the
membership list. Also returns the removed toplevel's final value (the C
caller keeps the pointer). -/
def _clear_container_stuff_in_toplevel (env : Env) (w : World) (c : Container)
    (tid : Nat) : World × Container × Option Toplevel :=
  let c := { c with stack := c.stack.filter (fun i => i != tid) }
  let wc := cwc_container_refresh env w c
  let removed := wc.2.toplevels.find? (fun t => t.id == tid)
  let c := { wc.2 with toplevels := wc.2.toplevels.filter (fun t => t.id != tid) }
  (wc.1, c, removed)

/-- cwc_container_fini (container.c line 641): removes any strategy handles
(also the remembered old one, temporarily restoring the old output
reference), leaves the minimized list, and frees the container; the layout
update it triggers is the strategy's recompute (bsp.c/master.c are not
under src/ and reassign only geometry, outside the modelled fields). Lua
and scene teardown are external. -/
def cwc_container_fini (w : World) (c : Container) : World × Container :=
  let wc := if c.bsp_node.isSome then bsp_remove_container w c false else (w, c)
  let w := wc.1
  let c := wc.2
  let wc :=
    if c.old_prop.bsp_node.isSome then
      let c := { c with
        output := c.old_prop.output.getD c.output
        bsp_node := c.old_prop.bsp_node }
      bsp_remove_container w c false
    else (w, c)
  let c := if wc.2.in_minimized_list then { wc.2 with in_minimized_list := false } else wc.2
  (wc.1, { c with destroyed := true })

/-- cwc_container_remove_toplevel (container.c line 694): clears the toplevel
and destroys the container when it became empty. -/
def cwc_container_remove_toplevel (env : Env) (w : World) (c : Container)
    (tid : Nat) : World × Container :=
  let wct := _clear_container_stuff_in_toplevel env w c tid
  if wct.2.1.toplevels.length != 0 then (wct.1, wct.2.1)
  else cwc_container_fini wct.1 wct.2.1

/-- cwc_container_remove_toplevel_but_dont_destroy_container_when_empty
(container.c line 706). -/
def cwc_container_remove_toplevel_but_dont_destroy_container_when_empty
    (env : Env) (w : World) (c : Container) (tid : Nat) : World × Container :=
  let wct := _clear_container_stuff_in_toplevel env w c tid
  (wct.1, wct.2.1)

/-- _remove_and_save_toplevel_ordering (container.c line 1008) iterated over
the whole membership list: removes every member (without destroying the
container) and appends each removed toplevel to the temp array in
iteration order. -/
def swap_collect_toplevels (env : Env) (w : World) (c : Container) :
    World × Container × List Toplevel :=
  (c.toplevels.map Toplevel.id).foldl
    (fun acc tid =>
      let wct := _clear_container_stuff_in_toplevel env acc.1 acc.2.1 tid
      (wct.1, wct.2.1, acc.2.2 ++ wct.2.2.toList))
    (w, c, [])

/-- wl_array_for_each over a collected array, inserting each toplevel into the
destination container (container.c lines 1036-1045). -/
def swap_insert_toplevels (env : Env) (w : World) (c : Container)
    (arr : List Toplevel) : World × Container :=
  arr.foldl (fun acc t => cwc_container_insert_toplevel_silence env acc.1 acc.2 t)
    (w, c)

/-- cwc_container_swap (container.c line 1018): snapshots both front
toplevels, strips both containers (preserving them when empty), crosses the
two toplevel groups over, and re-asserts the saved fronts in their new
containers (the swap signal is external). -/
def cwc_container_swap (env : Env) (w : World) (source target : Container) :
    World × Container × Container :=
  if source.id == target.id then (w, source, target)
  else
    let stop := cwc_container_get_front_toplevel source
    let ttop := cwc_container_get_front_toplevel target
    let ws := swap_collect_toplevels env w source
    let wt := swap_collect_toplevels env ws.1 target
    let w := wt.1
    let source := ws.2.1
    let target := wt.2.1
    let source_arr := ws.2.2
    let target_arr := wt.2.2
    let wtar := swap_insert_toplevels env w target source_arr
    let wsrc := swap_insert_toplevels env wtar.1 source target_arr
    let w := wsrc.1
    let source := wsrc.2
    let target := wtar.2
    let wtar :=
      match stop with
      | some t => cwc_container_set_front_toplevel env w target t.id
      | none => (w, target)
    let wsrc :=
      match ttop with
      | some t => cwc_container_set_front_toplevel env wtar.1 source t.id
      | none => (wtar.1, source)
    (wsrc.1, wsrc.2, wtar.2)

/-- on_surface_commit (toplevel.c line 311) for a toplevel that has a
container: the initial commit only configures protocol state (external);
otherwise a pending resize serial that the commit's configure-serial
acknowledges (ack greater or equal) settles — the outstanding count drops
and the serial clears. The tail then adjusts clipping for tiled members
(scene-internal) or, for a floating front member on a live output,
re-asserts the committed geometry on the container and border. -/
def on_surface_commit (env : Env) (w : World) (c : Container) (tid : Nat)
    (initial_commit : Bool) (configure_serial : Nat) : World × Container :=
  match c.toplevels.find? (fun t => t.id == tid) with
  | none => (w, c)
  | some t =>
    if initial_commit then (w, c)
    else
      let wct :=
        if t.resize_serial != 0 && t.resize_serial ≤ configure_serial then
          ({ w with resize_count := w.resize_count - 1 },
           updateToplevel c tid (fun t => { t with resize_serial := 0 }),
           { t with resize_serial := 0 })
        else (w, c, t)
      let w := wct.1
      let c := wct.2.1
      let t := wct.2.2
      if t.resizing
         || !((cwc_container_get_front_toplevel c).map Toplevel.id == some t.id)
         || !cwc_output_is_exist w c.output
         || !t.mapped then (w, c)
      else
        let geom := cwc_toplevel_get_geometry t
        let thickness := cwc_border_get_thickness c
        if !cwc_container_is_floating w c then (w, c)
        else
          let wc := cwc_toplevel_set_size_surface env w c geom.width geom.height
          let c := cwc_border_resize wc.2 (geom.width + thickness * 2)
            (geom.height + thickness * 2)
          (wc.1, c)

/-- timespec_to_msec. Modelled from the spec: util.h is not under src/;
standard conversion of a timespec to milliseconds. -/
def timespec_to_msec (t : Timespec) : Nat := t.tv_sec * 1000 + t.tv_nsec / 1000000

/-- Subtraction of uint64_t millisecond counts as C computes it (wrapping). -/
def u64_sub (a b : Nat) : Nat := (a % 2 ^ 64 + (2 ^ 64 - b % 2 ^ 64)) % 2 ^ 64

/-- allow_render (output.c line 278): an output already waiting for longer
than 500 ms force-resets the outstanding count to the sentinel -1 and
renders; otherwise a positive outstanding count suppresses rendering,
time-stamping the output at the first suppression; otherwise rendering is
allowed and the waiting stamp is cleared. -/
def allow_render (w : World) (o : Nat) (now : Timespec) : World × Bool :=
  let od := w.outputs o
  let is_waiting := od.waiting_since.tv_sec != 0
  if is_waiting
     && u64_sub (timespec_to_msec now) (timespec_to_msec od.waiting_since) > 500 then
    let w := { w with resize_count := -1 }
    let od := w.outputs o
    let od := { od with waiting_since := { od.waiting_since with tv_sec := 0 } }
    ({ w with outputs := Function.update w.outputs o od }, true)
  else if w.resize_count > 0 then
    let w :=
      if !is_waiting then
        { w with outputs := Function.update w.outputs o { od with waiting_since := now } }
      else w
    (w, false)
  else
    let od := { od with waiting_since := { od.waiting_since with tv_sec := 0 } }
    ({ w with outputs := Function.update w.outputs o od }, true)

/-- output_repaint (output.c line 303), reduced to whether a page flip is
attempted: nothing happens without a pending frame; otherwise rendering
proceeds exactly when allow_render says so or the frame may tear
(output_can_tear: the focused toplevel and the output both permit tearing —
seat state abstracted into the can_tear flag). Scene state building and the
commit itself are rendering-side. -/
def output_repaint (w : World) (o : Nat) (now : Timespec)
    (needs_frame can_tear : Bool) : World × Bool :=
  if !needs_frame then (w, false)
  else
    let wa := allow_render w o now
    if !wa.2 && !can_tear then (wa.1, false)
    else (wa.1, true)

/-- Threads a world-updating function over every container of the server list
in place (the containers field is reassembled positionally, matching
in-place mutation of the intrusive list members). -/
def mapContainersGo (f : World → Container → World × Container) :
    World → List Container → World × List Container
  | w, [] => (w, [])
  | w, c :: rest =>
    let wc := f w c
    let wr := mapContainersGo f wc.1 rest
    (wr.1, wc.2 :: wr.2)

/-- Runs a per-container mutation over server.containers. -/
def mapContainers (f : World → Container → World × Container) (w : World) : World :=
  let wr := mapContainersGo f w w.containers
  { wr.1 with containers := wr.2 }

/-- cwc_output_focus (output.c line 56): focusing the already-focused or a
disabled output is a no-op; the fallback is adopted silently; otherwise the
output becomes focused (toplevel refocus and signals are external). -/
def cwc_output_focus (w : World) (o : Nat) : World :=
  if w.focused == o || !(w.outputs o).enabled then w
  else if o == w.fallback then { w with focused := o }
  else { w with focused := o }

/-- cwc_output_get_other_available_output (output.c line 401): with at least
two outputs, walk the output list backwards from the reference (wrapping
past the list head, which is skipped) and focus and return the first
enabled one; otherwise fall back to the fallback output. -/
def cwc_output_get_other_available_output (w : World) (reference : Nat) :
    World × Nat :=
  if 2 ≤ w.live.length then
    let idx := w.live.indexOf reference
    let order := (w.live.take idx).reverse ++ (w.live.drop (idx + 1)).reverse
    match order.find? (fun o => (w.outputs o).enabled) with
    | some o => (cwc_output_focus w o, o)
    | none => (w, w.fallback)
  else (w, w.fallback)

/-- Body run by cwc_output_rescue_toplevel_container for one container of the
source output (output.c lines 365-389): a container not already displaced
remembers its origin (unless the source is the fallback, which must not
colonize a tag), surrenders its strategy handle, moves to the target, and —
when it has an origin to honour — also moves to its remembered workspace. -/
def rescue_one (w : World) (c : Container) (source target : Nat) :
    World × Container :=
  let mc :=
    if c.old_prop.output == none then
      if source == w.fallback then (false, c)
      else
        (true,
         { c with
            old_prop := { output := some source, bsp_node := c.bsp_node,
                          workspace := c.workspace, tag := c.tag }
            bsp_node := none })
    else (true, c)
  let wc := cwc_container_move_to_output w mc.2 target
  if mc.1 then cwc_container_move_to_tag wc.1 wc.2 wc.2.old_prop.workspace
  else wc

/-- cwc_output_rescue_toplevel_container (output.c line 359): moves every
container scoped to the source output into the target (the per-output
toplevel list reattachment is external bookkeeping). -/
def cwc_output_rescue_toplevel_container (w : World) (source target : Nat) : World :=
  if source == target then w
  else
    mapContainers
      (fun w c => if c.output == source then rescue_one w c source target else (w, c))
      w

/-- cwc_output_state_create (output.c line 110): a fresh state with workspace
1 and tag 1 active and every TagInfo entry defaulted (floating layout, the
configured gap width, master parameters 1/1 with factor one half); entries
beyond the loop stay in their calloc zero state. -/
def cwc_output_state_create (env : Env) : OutputState :=
  { active_tag := 1
    active_workspace := 1
    max_general_workspace := 9
    tag_info := fun i =>
      (if i < env.MAX_WORKSPACE then
        { index := i
          useless_gaps := env.config_useless_gaps
          layout_mode := CWC_LAYOUT_FLOATING
          pending_transaction := false
          master_count := 1
          column_count := 1
          master_mwfact := 1 / 2 }
       else {}) }

/-- cwc_output_state_save (output.c line 143): stores the output's state in
the restoration cache under its hardware name, remembering the old output
(the data stays with the output id; a later lookup of the same name finds
this entry). -/
def cwc_output_state_save (w : World) (o : Nat) : World :=
  { w with state_cache := ((w.outputs o).name, o) :: w.state_cache }

/-- cwc_output_restore (output.c line 150): every container remembering the
old output reclaims it — it moves to the new output and gets back its
strategy handle, tag and workspace, forgetting the old placement. Per-
output toplevel reattachment and layer-shell rebinding are external; the
per-workspace pending flags of the adopted state are cleared. -/
def cwc_output_restore (env : Env) (w : World) (output old_output : Nat) : World :=
  let w := mapContainers
    (fun w c =>
      if c.old_prop.output == some old_output then
        let wc := cwc_container_move_to_output w c output
        (wc.1,
         { wc.2 with
            bsp_node := c.old_prop.bsp_node
            tag := c.old_prop.tag
            workspace := c.old_prop.workspace
            old_prop := {} })
      else (w, c))
    w
  let od := w.outputs output
  let st := od.state
  let st := { st with tag_info := fun i =>
    (if i < env.MAX_WORKSPACE then { st.tag_info i with pending_transaction := false }
     else st.tag_info i) }
  { w with outputs := Function.update w.outputs output { od with state := st } }

/-- cwc_output_state_try_restore (output.c line 199): looks the output's name
up in the restoration cache; on a hit the cached state is adopted verbatim,
the containers are restored, and the cache entry is evicted. -/
def cwc_output_state_try_restore (env : Env) (w : World) (output : Nat) :
    World × Bool :=
  match w.state_cache.lookup (w.outputs output).name with
  | none => (w, false)
  | some old_output =>
    let od := { w.outputs output with state := (w.outputs old_output).state }
    let w := { w with outputs := Function.update w.outputs output od }
    let w := cwc_output_restore env w output old_output
    let w := { w with state_cache :=
      w.state_cache.filter (fun p => p.1 != (w.outputs output).name) }
    (w, true)

/-- cwc_output_create (output.c line 636): a fresh enabled output whose layout
box and usable area mirror the wlr mode; a cached state under the same name
is adopted (marking the output restored), else a fresh state is created. -/
def cwc_output_create (env : Env) (w : World) (o : Nat) (name : String)
    (wlr_width wlr_height : Int) : World :=
  let od : OutputData :=
    { name := name
      enabled := true
      restored := false
      usable_area := { width := wlr_width, height := wlr_height }
      output_layout_box := { width := wlr_width, height := wlr_height }
      state := (w.outputs o).state }
  let w := { w with outputs := Function.update w.outputs o od }
  let wr := cwc_output_state_try_restore env w o
  let w := wr.1
  if wr.2 then
    let od := w.outputs o
    { w with outputs := Function.update w.outputs o { od with restored := true } }
  else
    let od := w.outputs o
    { w with outputs := Function.update w.outputs o { od with state := cwc_output_state_create env } }

/-- insert_tiled_toplevel_to_bsp_tree (output.c line 1153): inserts every
visible, non-floating, unassigned container of the workspace into the BSP
tree, keeping maximize/fullscreen suspensions disabled. -/
def insert_tiled_toplevel_to_bsp_tree (w : World) (o : Nat) (workspace : Nat) : World :=
  mapContainers
    (fun w c =>
      if c.output == o then
        if !cwc_container_is_visible_in_workspace w c workspace
           || cwc_container_is_floating w c || c.bsp_node.isSome then (w, c)
        else
          let wc := bsp_insert_container w c workspace
          let c :=
            if cwc_container_is_maximized wc.2 || cwc_container_is_fullscreen wc.2 then
              bsp_node_disable wc.2
            else wc.2
          (wc.1, c)
      else (w, c))
    w

/-- restore_floating_box_for_all (output.c line 1211): re-asserts the saved
floating box of every visible, configure-allowed floating container of the
output. -/
def restore_floating_box_for_all (env : Env) (w : World) (o : Nat) : World :=
  mapContainers
    (fun w c =>
      if c.output == o && cwc_container_is_floating w c
         && cwc_container_is_visible w c && cwc_container_is_configure_allowed c then
        cwc_container_restore_floating_box env w c
      else (w, c))
    w

/-- cwc_output_set_layout_mode (output.c line 1224): a mode outside the enum
range is rejected as a no-op; workspace 0 means the active workspace; the
mode is stored and entering BSP populates the tree while entering floating
re-asserts floating boxes, then the workspace is scheduled. -/
def cwc_output_set_layout_mode (env : Env) (w : World) (o : Nat)
    (workspace : Int) (mode : Int) : World :=
  if mode < 0 || mode ≥ CWC_LAYOUT_LENGTH then w
  else
    let workspace :=
      if workspace == 0 then ((w.outputs o).state.active_workspace : Int) else workspace
    let wsn := workspace.toNat
    let od := w.outputs o
    let st := od.state
    let st := { st with tag_info := fun i =>
      (if i = wsn then { st.tag_info i with layout_mode := mode } else st.tag_info i) }
    let w := { w with outputs := Function.update w.outputs o { od with state := st } }
    let w :=
      if mode == CWC_LAYOUT_BSP then insert_tiled_toplevel_to_bsp_tree w o wsn
      else if mode == CWC_LAYOUT_FLOATING then restore_floating_box_for_all env w o
      else w
    transaction_schedule_tag w o wsn

/-- cwc_tag_find_first_tag loop body (output.c line 1306): scan workspace
indices from i upwards while below MAX_WORKSPACE, returning the first whose
bit is set, else 0. -/
def cwc_tag_find_first_tag_go (MAXW : Nat) (i : Nat) (tag : Nat) : Nat :=
  if i < MAXW then
    (if tag &&& 1 == 1 then i else cwc_tag_find_first_tag_go MAXW (i + 1) (tag >>> 1))
  else 0
termination_by MAXW - i

/-- cwc_tag_find_first_tag (output.c line 1304): the lowest-numbered workspace
(starting from 1) whose bit is set in the tag bitfield, or 0 when no bit
within the workspace range is set. -/
def cwc_tag_find_first_tag (MAXW : Nat) (tag : Nat) : Nat :=
  cwc_tag_find_first_tag_go MAXW 1 tag

/-- cwc_output_set_active_tag (output.c line 1195): a no-op when the tag set
is unchanged; when the previously active workspace's bit is absent from the
new tag set, the active workspace becomes the first workspace of the new
set; the tag set is stored and the output and its (new) current workspace
are scheduled (the property signal is external). -/
def cwc_output_set_active_tag (env : Env) (w : World) (o : Nat) (newtag : Nat) : World :=
  if newtag == (w.outputs o).state.active_tag then w
  else
    let od := w.outputs o
    let st := od.state
    let st :=
      if (newtag >>> (st.active_workspace - 1)) &&& 1 == 0 then
        { st with active_workspace := cwc_tag_find_first_tag env.MAX_WORKSPACE newtag }
      else st
    let st := { st with active_tag := newtag }
    let w := { w with outputs := Function.update w.outputs o { od with state := st } }
    let w := transaction_schedule_output w o
    transaction_schedule_tag w o ((w.outputs o).state.active_workspace)

/-- cwc_output_set_useless_gaps (output.c line 1275): workspace 0 means the
active workspace; the index is clamped into [1, MAX_WORKSPACE] and the gap
width floored at 0 before the TagInfo write, then the workspace is
scheduled. -/
def cwc_output_set_useless_gaps (env : Env) (w : World) (o : Nat)
    (workspace : Int) (gaps_width : Int) : World :=
  let workspace :=
    if workspace == 0 then ((w.outputs o).state.active_workspace : Int) else workspace
  let workspace := CLAMP workspace 1 (env.MAX_WORKSPACE : Int)
  let gaps := MAX 0 gaps_width
  let wsn := workspace.toNat
  let od := w.outputs o
  let st := od.state
  let st := { st with tag_info := fun i =>
    (if i = wsn then { st.tag_info i with useless_gaps := gaps } else st.tag_info i) }
  let w := { w with outputs := Function.update w.outputs o { od with state := st } }
  transaction_schedule_tag w o wsn

/-- cwc_output_set_mwfact (output.c line 1289): workspace 0 means the active
workspace; the index is clamped into [1, MAX_WORKSPACE] and the main-area
factor into [0.1, 0.9] before the master-state write, then the workspace is
scheduled. The C double is modelled as a rational. -/
def cwc_output_set_mwfact (env : Env) (w : World) (o : Nat)
    (workspace : Int) (factor : Rat) : World :=
  let workspace :=
    if workspace == 0 then ((w.outputs o).state.active_workspace : Int) else workspace
  let workspace := CLAMP workspace 1 (env.MAX_WORKSPACE : Int)
  let factor := CLAMP factor (1 / 10) (9 / 10)
  let wsn := workspace.toNat
  let od := w.outputs o
  let st := od.state
  let st := { st with tag_info := fun i =>
    (if i = wsn then { st.tag_info i with master_mwfact := factor } else st.tag_info i) }
  let w := { w with outputs := Function.update w.outputs o { od with state := st } }
  transaction_schedule_tag w o wsn

/-- on_output_destroy (output.c line 449): persist the state under the
output's name, pick and focus a replacement output, rescue every container
and toplevel to it, re-assert the replacement's layout modes per workspace
(unless it is the fallback), schedule it, and drop the output from the live
list. Layer-shell teardown, wlr listener/scene cleanup and the output
layout update are external. -/
def on_output_destroy (env : Env) (w : World) (o : Nat) : World :=
  let w := cwc_output_state_save w o
  let wa := cwc_output_get_other_available_output w o
  let w := cwc_output_focus wa.1 wa.2
  let available := wa.2
  let w := cwc_output_rescue_toplevel_container w o available
  let w :=
    if available != w.fallback then
      (List.range env.MAX_WORKSPACE).foldl
        (fun w (i : Nat) =>
          if 1 ≤ i then
            cwc_output_set_layout_mode env w available (Int.ofNat i)
              (((w.outputs available).state.tag_info i).layout_mode)
          else w)
        w
    else w
  let w := transaction_schedule_output w available
  { w with live := w.live.erase o }

/-- on_new_output (output.c line 660): create the output (restoring any
cached state of the same name), rescue the fallback's containers and
toplevels onto it, link it into the live list, schedule its current
workspace, and focus it when it is the only output. Renderer/mode setup,
the wlr output layout and signals are external. -/
def on_new_output (env : Env) (w : World) (o : Nat) (name : String)
    (wlr_width wlr_height : Int) : World :=
  let w := cwc_output_create env w o name wlr_width wlr_height
  let w := cwc_output_rescue_toplevel_container w w.fallback o
  let w := { w with live := o :: w.live }
  let w := transaction_schedule_tag w o ((w.outputs o).state.active_workspace)
  if w.live.length == 1 then cwc_output_focus w o else w

section FrameLemmas

@[simp]
theorem state_updateToplevel (c : Container) (tid : Nat) (f : Toplevel → Toplevel) :
    (updateToplevel c tid f).state = c.state := rfl

@[simp]
theorem state_bsp_remove (w : World) (c : Container) (p : Bool) :
    (bsp_remove_container w c p).2.state = c.state := rfl

@[simp]
theorem state_bsp_insert (w : World) (c : Container) (ws : Nat) :
    (bsp_insert_container w c ws).2.state = c.state := rfl

@[simp]
theorem state_bsp_disable (c : Container) : (bsp_node_disable c).state = c.state := by
  unfold bsp_node_disable
  cases c.bsp_node <;> rfl

@[simp]
theorem state_bsp_enable (c : Container) : (bsp_node_enable c).state = c.state := by
  unfold bsp_node_enable
  cases c.bsp_node <;> rfl

@[simp]
theorem state_bsp_set_enabled_id (n : Nat) (e : Bool) (c : Container) :
    (bsp_node_set_enabled_id n e c).state = c.state := by
  unfold bsp_node_set_enabled_id
  cases c.bsp_node
  · rfl
  · dsimp only
    split <;> rfl

@[simp]
theorem state_border_resize (c : Container) (a b : Int) :
    (cwc_border_resize c a b).state = c.state := by
  unfold cwc_border_resize
  split
  · rfl
  · split <;> rfl

@[simp]
theorem state_border_set_enabled (w : World) (c : Container) (e : Bool) :
    (cwc_border_set_enabled w c e).2.state = c.state := by
  unfold cwc_border_set_enabled
  split <;> rfl

@[simp]
theorem state_save_floating_box_position (w : World) (c : Container) (px py : Int) :
    (save_floating_box_position w c px py).state = c.state := by
  unfold save_floating_box_position
  split <;> rfl

@[simp]
theorem state_save_floating_box_size (w : World) (c : Container) (sw sh : Int) :
    (save_floating_box_size w c sw sh).state = c.state := by
  unfold save_floating_box_size
  split <;> rfl

@[simp]
theorem state_move_to_output (w : World) (c : Container) (target : Nat) (tr : Bool) :
    (__cwc_container_move_to_output w c target tr).2.state = c.state := by
  unfold __cwc_container_move_to_output
  split
  · rfl
  · dsimp only
    split <;> split <;> rfl

@[simp]
theorem state_update_container_output (env : Env) (w : World) (c : Container) :
    (update_container_output env w c).2.state = c.state := by
  unfold update_container_output
  dsimp only
  split
  · rfl
  · split
    · rfl
    · simp [cwc_container_move_to_output_without_translate]

@[simp]
theorem state_set_position_global (env : Env) (w : World) (c : Container) (px py : Int) :
    (cwc_container_set_position_global env w c px py).2.state = c.state := by
  unfold cwc_container_set_position_global
  simp

@[simp]
theorem state_set_position (env : Env) (w : World) (c : Container) (px py : Int) :
    (cwc_container_set_position env w c px py).2.state = c.state := by
  unfold cwc_container_set_position
  simp

@[simp]
theorem state_set_size_fold_step (acc : World × (Int × Int) × Container) (tid : Nat) :
    (set_size_fold_step acc tid).2.2.state = acc.2.2.state := by
  unfold set_size_fold_step
  cases acc.2.2.toplevels.find? (fun t => t.id == tid) <;> simp

theorem state_foldl_set_size (l : List Nat) :
    ∀ acc : World × (Int × Int) × Container,
    (l.foldl set_size_fold_step acc).2.2.state = acc.2.2.state := by
  induction l with
  | nil => intro acc; rfl
  | cons tid rest ih =>
    intro acc
    simp only [List.foldl_cons]
    rw [ih (set_size_fold_step acc tid)]
    simp

@[simp]
theorem state_set_size (env : Env) (w : World) (c : Container) (a b : Int) :
    (cwc_container_set_size env w c a b).2.state = c.state := by
  unfold cwc_container_set_size
  simp [state_foldl_set_size]

@[simp]
theorem state_set_size_surface (env : Env) (w : World) (c : Container) (a b : Int) :
    (cwc_toplevel_set_size_surface env w c a b).2.state = c.state := by
  unfold cwc_toplevel_set_size_surface
  simp

@[simp]
theorem state_toplevel_set_position (env : Env) (w : World) (c : Container) (a b : Int) :
    (cwc_toplevel_set_position env w c a b).2.state = c.state := by
  unfold cwc_toplevel_set_position
  simp

@[simp]
theorem state_restore_floating_box (env : Env) (w : World) (c : Container) :
    (cwc_container_restore_floating_box env w c).2.state = c.state := by
  unfold cwc_container_restore_floating_box
  simp

theorem state_for_each_fold_go (f : World → Container → Toplevel → World × Container)
    (hf : ∀ w c t, (f w c t).2.state = c.state) (l : List Nat) :
    ∀ (w : World) (c : Container),
    (l.foldl (fun acc tid =>
      match acc.2.toplevels.find? (fun t => t.id == tid) with
      | none => acc
      | some t => f acc.1 acc.2 t) (w, c)).2.state = c.state := by
  induction l with
  | nil => intro w c; rfl
  | cons tid rest ih =>
    intro w c
    simp only [List.foldl_cons]
    cases hfind : c.toplevels.find? (fun t => t.id == tid) with
    | none => simpa [hfind] using ih w c
    | some t =>
      have h1 := ih (f w c t).1 (f w c t).2
      rw [hf] at h1
      simpa [hfind] using h1

theorem state_for_each_fold (w : World) (c : Container)
    (f : World → Container → Toplevel → World × Container)
    (hf : ∀ w c t, (f w c t).2.state = c.state) :
    (for_each_toplevel_fold w c f).2.state = c.state := by
  unfold for_each_toplevel_fold
  exact state_for_each_fold_go f hf _ w c

@[simp]
theorem state_all_toplevel_set_fullscreen (env : Env) (s : Bool) (w : World)
    (c : Container) (t : Toplevel) :
    (all_toplevel_set_fullscreen env s w c t).2.state = c.state := by
  unfold all_toplevel_set_fullscreen
  cases s <;> simp

@[simp]
theorem state_all_toplevel_set_maximized (env : Env) (s : Bool) (w : World)
    (c : Container) (t : Toplevel) :
    (all_toplevel_set_maximized env s w c t).2.state = c.state := by
  unfold all_toplevel_set_maximized
  cases s <;> simp

theorem state_set_maximized_body (env : Env) (w : World) (c : Container)
    (cap : Option BspNodeRef) (s : Bool) :
    (cwc_container_set_maximized_body env w c cap s).2.state
      = { c.state with maximized := s } := by
  unfold cwc_container_set_maximized_body
  dsimp only
  rw [state_for_each_fold _ _ _ (state_all_toplevel_set_maximized env s)]
  split
  · rename_i hs
    subst hs
    cases cap <;> simp
  · rename_i hs
    have hs' : s = false := by revert hs; cases s <;> simp
    subst hs'
    split
    · simp
    · split
      · cases cap <;> simp
      · simp

theorem state_set_maximized_nofs (env : Env) (w : World) (c : Container) (s : Bool) :
    (cwc_container_set_maximized_nofs env w c s).2.state
      = { c.state with maximized := s } := by
  unfold cwc_container_set_maximized_nofs
  rw [state_set_maximized_body]
  simp

theorem state_set_fullscreen (env : Env) (w : World) (c : Container) (s : Bool) :
    (cwc_container_set_fullscreen env w c s).2.state
      = (if s then { c.state with fullscreen := true }
         else { c.state with fullscreen := false, maximized := c.state.maximized }) := by
  unfold cwc_container_set_fullscreen
  dsimp only
  rw [state_for_each_fold _ _ _ (state_all_toplevel_set_fullscreen env s)]
  split
  · rename_i hs
    subst hs
    simp only [if_true]
    cases c.bsp_node <;> simp
  · rename_i hs
    have hs' : s = false := by revert hs; cases s <;> simp
    subst hs'
    have key : ∀ (w1 : World) (c1 : Container),
        c1.state = { c.state with fullscreen := false } →
        ((if c1.state.maximized then cwc_container_set_maximized_nofs env w1 c1 true
          else (w1, c1)).2).state
          = { c.state with fullscreen := false, maximized := c.state.maximized } := by
      intro w1 c1 h1
      have hm1 : c1.state.maximized = c.state.maximized := by rw [h1]
      by_cases hmax : c1.state.maximized = true
      · rw [if_pos hmax, state_set_maximized_nofs, h1]
        rw [hmax] at hm1
        simp [← hm1]
      · rw [if_neg hmax]
        dsimp only
        rw [h1]
    apply key
    repeat' split
    all_goals simp

theorem state_set_maximized (env : Env) (w : World) (c : Container) (b : Bool) :
    (cwc_container_set_maximized env w c b).2.state
      = (if c.state.fullscreen then
           { c.state with fullscreen := false, maximized := true }
         else { c.state with maximized := b }) := by
  unfold cwc_container_set_maximized
  by_cases hf : c.state.fullscreen
  · simp only [cwc_container_is_fullscreen, state_border_set_enabled, hf, if_true]
    rw [state_set_maximized_body, state_set_fullscreen]
    simp [hf]
  · have hf' : c.state.fullscreen = false := by revert hf; cases c.state.fullscreen <;> simp
    simp only [cwc_container_is_fullscreen, state_border_set_enabled, hf,
      Bool.false_eq_true, if_false]
    rw [state_set_maximized_body]
    simp [hf']

end FrameLemmas

section Fixtures

/-- A one-output environment: no point of the layout lies on another output. -/
def env0 : Env := { output_at := fun _ _ => none }

/-- A fresh output state whose TagInfo entries are all defaulted. -/
def st0 : OutputState := { tag_info := fun _ => {} }

/-- A world with one output (id 0, active workspace 1, active tag 1). -/
def w0 : World := { outputs := fun _ => { state := st0 } }

end Fixtures

section ClaimC4

/-- A minimized, non-sticky container whose tag matches the active tag. -/
def c4_min : Container := { id := 0, output := 0, tag := 1, state := { minimized := true } }

/-- A sticky and minimized container. -/
def c4_sticky_min : Container :=
  { id := 1, output := 0, tag := 1, state := { minimized := true, sticky := true } }

/-- C4, counterexample. The claim states that cwc_container_is_visible returns
true iff sticky or (active_tag AND tag) is nonzero, and that a minimized
container is never visible. Both parts fail on the code: a minimized
non-sticky container with a matching tag is not visible although the
claimed right-hand side holds, and a sticky minimized container is visible
although the claim says minimized is never visible. -/
theorem c4_visible_cex :
    (¬(cwc_container_is_visible w0 c4_min =
        (cwc_container_is_sticky c4_min
         || ((w0.outputs c4_min.output).state.active_tag &&& c4_min.tag != 0))))
    ∧ cwc_container_is_visible w0 c4_sticky_min = true
    ∧ cwc_container_is_minimized c4_sticky_min = true := by
  refine ⟨?_, by decide, by decide⟩
  decide

/-- C4, amended. For every container, cwc_container_is_visible returns true
iff the container is sticky, or it is not minimized and the bitwise AND of
the output's active tag and the container's tag is nonzero; in particular
a minimized container is never visible unless it is sticky. -/
theorem c4_visible_amended (w : World) (c : Container) :
    cwc_container_is_visible w c =
      (cwc_container_is_sticky c
       || (!cwc_container_is_minimized c
           && ((w.outputs c.output).state.active_tag &&& c.tag != 0))) := by
  unfold cwc_container_is_visible cwc_container_is_sticky cwc_container_is_minimized
  by_cases hs : c.state.sticky <;>
    by_cases hm : c.state.minimized <;>
      by_cases hat : (w.outputs c.output).state.active_tag = 0 <;>
        simp [hs, hm, hat, Nat.zero_and]

end ClaimC4

section ClaimC1

/-- A container created for a toplevel that requests both maximized and
fullscreen (xdg clients can request both): the state
_cwc_container_set_initial_state computes at creation. -/
def c1_both : Container :=
  _cwc_container_set_initial_state { id := 0, output := 0 } false true true false

/-- A container whose Maximized flag is set (reachable by
cwc_container_set_maximized true from the default state). -/
def c1_max : Container := { id := 1, output := 0, state := { maximized := true } }

/-- C1, counterexample. Maximized and Fullscreen are not mutually exclusive:
at creation, _cwc_container_set_initial_state sets both flags when the
client requests both; and cwc_container_set_fullscreen true on a maximized
container keeps the Maximized flag set instead of turning it off first. -/
theorem c1_mutual_exclusion_cex :
    (cwc_container_is_maximized c1_both = true
     ∧ cwc_container_is_fullscreen c1_both = true)
    ∧ (cwc_container_is_maximized (cwc_container_set_fullscreen env0 w0 c1_max true).2 = true
       ∧ cwc_container_is_fullscreen (cwc_container_set_fullscreen env0 w0 c1_max true).2 = true) := by
  refine ⟨⟨by decide, by decide⟩, ?_, ?_⟩ <;>
    · simp only [cwc_container_is_maximized, cwc_container_is_fullscreen,
        state_set_fullscreen]
      rfl

/-- C1, amended. Entering Fullscreen does not turn Maximized off: it preserves
the Maximized flag (so both flags hold simultaneously while a maximized
container is fullscreen). Exiting Fullscreen clears the Fullscreen flag and
re-applies Maximized automatically when its flag is still set (the flag is
preserved across the exit). Conversely, cwc_container_set_maximized always
leaves Fullscreen off — called on a fullscreen container it exits
fullscreen first and forces Maximized on. -/
theorem c1_mutual_exclusion_amended (env : Env) (w : World) (c : Container) (b : Bool) :
    ((cwc_container_set_fullscreen env w c true).2.state.maximized = c.state.maximized
     ∧ (cwc_container_set_fullscreen env w c true).2.state.fullscreen = true)
    ∧ ((cwc_container_set_fullscreen env w c false).2.state.fullscreen = false
       ∧ (cwc_container_set_fullscreen env w c false).2.state.maximized = c.state.maximized)
    ∧ ((cwc_container_set_maximized env w c b).2.state.fullscreen = false
       ∧ (cwc_container_set_maximized env w c b).2.state.maximized
           = (c.state.fullscreen || b)) := by
  refine ⟨⟨?_, ?_⟩, ⟨?_, ?_⟩, ?_, ?_⟩
  · rw [state_set_fullscreen]; simp
  · rw [state_set_fullscreen]; simp
  · rw [state_set_fullscreen]; simp
  · rw [state_set_fullscreen]; simp
  · rw [state_set_maximized]
    cases hf : c.state.fullscreen <;> simp [hf]
  · rw [state_set_maximized]
    cases hf : c.state.fullscreen <;> simp [hf]

end ClaimC1

section ClaimC10

/-- C10. A layout mode outside the valid enum range (mode below 0 or at least
CWC_LAYOUT_LENGTH) makes cwc_output_set_layout_mode return immediately: the
whole server state is unchanged, for every output and workspace argument —
a rejection as a no-op, with no clamping. -/
theorem c10_layout_mode_rejects (env : Env) (w : World) (o : Nat)
    (workspace mode : Int) (h : mode < 0 ∨ CWC_LAYOUT_LENGTH ≤ mode) :
    cwc_output_set_layout_mode env w o workspace mode = w := by
  unfold cwc_output_set_layout_mode
  rcases h with h | h
  · simp [h]
  · simp only [CWC_LAYOUT_LENGTH] at h
    simp [CWC_LAYOUT_LENGTH]
    intro h0 h3
    omega

/-- C10, witness: mode -1 and mode 3 (= CWC_LAYOUT_LENGTH) are both rejected
without touching the world. -/
theorem c10_layout_mode_rejects_witness :
    cwc_output_set_layout_mode env0 w0 0 1 (-1) = w0
    ∧ cwc_output_set_layout_mode env0 w0 0 1 3 = w0 :=
  ⟨c10_layout_mode_rejects env0 w0 0 1 (-1) (Or.inl (by decide)),
   c10_layout_mode_rejects env0 w0 0 1 3 (Or.inr (by decide))⟩

end ClaimC10

section ClaimC8

/-- Lower bound of the C CLAMP macro. -/
theorem CLAMP_lo_le {α : Type} [LinearOrder α] (x lo hi : α) (h : lo ≤ hi) :
    lo ≤ CLAMP x lo hi := by
  unfold CLAMP
  split
  · exact h
  · split
    · exact le_refl lo
    · exact le_of_not_lt (by assumption)

/-- Upper bound of the C CLAMP macro. -/
theorem CLAMP_le_hi {α : Type} [LinearOrder α] (x lo hi : α) (h : lo ≤ hi) :
    CLAMP x lo hi ≤ hi := by
  unfold CLAMP
  split
  · exact le_refl hi
  · split
    · exact h
    · exact le_of_not_lt (by assumption)

/-- Lower bound of the C MAX macro. -/
theorem MAX_le_left {α : Type} [LinearOrder α] (a b : α) : a ≤ MAX a b := by
  unfold MAX
  split
  · exact le_refl a
  · exact le_of_not_lt (by assumption)

/-- The workspace index cwc_output_set_useless_gaps and cwc_output_set_mwfact
actually use after their clamp. -/
def clamped_workspace (env : Env) (w : World) (o : Nat) (workspace : Int) : Int :=
  let workspace :=
    if workspace == 0 then ((w.outputs o).state.active_workspace : Int) else workspace
  CLAMP workspace 1 (env.MAX_WORKSPACE : Int)

/-- C8, counterexample. The claim says the workspace index is clamped into
[1, MAX_WORKSPACE) before the TagInfo write. With MAX_WORKSPACE = 30,
calling cwc_output_set_useless_gaps with workspace argument 30 writes the
gap into TagInfo slot 30 — the clamp uses the inclusive bound
MAX_WORKSPACE, which is not below MAX_WORKSPACE, so the written slot is
outside the claimed range (and one past the last valid workspace index). -/
theorem c8_clamp_cex :
    (((cwc_output_set_useless_gaps env0 w0 0 30 7).outputs 0).state.tag_info 30).useless_gaps = 7
    ∧ clamped_workspace env0 w0 0 30 = 30
    ∧ ¬((30 : Int) < (env0.MAX_WORKSPACE : Int)) := by
  refine ⟨by decide, by decide, by decide⟩

/-- C8, amended. For every workspace argument (including 0 and values at or
beyond MAX_WORKSPACE) and every gap/factor value, the two setters clamp the
workspace index into the inclusive range [1, MAX_WORKSPACE] — not
[1, MAX_WORKSPACE) — before writing the TagInfo array, clamp the stored gap
width to at least 0, and clamp the stored main-area factor into [0.1, 0.9];
out-of-range inputs are clamped, never rejected (the write always
happens). -/
theorem c8_clamp_amended (env : Env) (w : World) (o : Nat) (workspace : Int)
    (g : Int) (f : Rat) (h : 1 ≤ env.MAX_WORKSPACE) :
    (1 ≤ clamped_workspace env w o workspace
      ∧ clamped_workspace env w o workspace ≤ (env.MAX_WORKSPACE : Int))
    ∧ (((cwc_output_set_useless_gaps env w o workspace g).outputs o).state.tag_info
        (clamped_workspace env w o workspace).toNat).useless_gaps = MAX 0 g
    ∧ 0 ≤ MAX 0 g
    ∧ (((cwc_output_set_mwfact env w o workspace f).outputs o).state.tag_info
        (clamped_workspace env w o workspace).toNat).master_mwfact = CLAMP f (1 / 10) (9 / 10)
    ∧ (1 : Rat) / 10 ≤ CLAMP f (1 / 10) (9 / 10)
    ∧ CLAMP f (1 / 10) (9 / 10) ≤ (9 : Rat) / 10 := by
  have hle : (1 : Int) ≤ (env.MAX_WORKSPACE : Int) := by exact_mod_cast h
  refine ⟨⟨CLAMP_lo_le _ _ _ hle, CLAMP_le_hi _ _ _ hle⟩, ?_, MAX_le_left 0 g, ?_,
    CLAMP_lo_le _ _ _ (by norm_num), CLAMP_le_hi _ _ _ (by norm_num)⟩
  · unfold cwc_output_set_useless_gaps clamped_workspace transaction_schedule_tag
    simp [Function.update]
  · unfold cwc_output_set_mwfact clamped_workspace transaction_schedule_tag
    simp [Function.update]

/-- C8, witness for the amended claim: with MAX_WORKSPACE = 30, workspace
argument 0 (meaning the active workspace 1), gap -5 and factor 2 are
clamped to 0 and 9/10. -/
theorem c8_clamp_amended_witness :
    1 ≤ (30 : Nat)
    ∧ (((cwc_output_set_useless_gaps env0 w0 0 0 (-5)).outputs 0).state.tag_info
        (clamped_workspace env0 w0 0 0).toNat).useless_gaps = MAX 0 (-5)
    ∧ (((cwc_output_set_mwfact env0 w0 0 0 2).outputs 0).state.tag_info
        (clamped_workspace env0 w0 0 0).toNat).master_mwfact = CLAMP 2 (1 / 10) (9 / 10) := by
  have hm := c8_clamp_amended env0 w0 0 0 (-5) 2 (by decide)
  have hm2 := c8_clamp_amended env0 w0 0 0 (-5) 2 (by decide)
  exact ⟨by decide, hm.2.1, hm2.2.2.2.1⟩

end ClaimC8

section ClaimC3

/-- Wrapped uint64 subtraction coincides with Nat subtraction for a monotone,
sane clock. -/
theorem u64_sub_eq (a b : Nat) (hba : b ≤ a) (hlt : a - b < 2 ^ 64) :
    u64_sub a b = a - b := by
  unfold u64_sub
  omega

/-- A world whose outstanding resize count is 1 and whose output 0 is not yet
waiting. -/
def c3_w : World := { w0 with resize_count := 1 }

/-- C3, counterexample. The claim says repaint is suppressed whenever the
outstanding resize count is positive (with only the 500 ms timeout as
exception). With the count at 1, the output not yet waiting (so no timeout
is possible), a pending frame and a focused toplevel that permits tearing
page flips, output_repaint nevertheless proceeds to commit: tearing is a
second exception the claim omits. -/
theorem c3_repaint_cex :
    c3_w.resize_count = 1
    ∧ (c3_w.outputs 0).waiting_since.tv_sec = 0
    ∧ (output_repaint c3_w 0 { tv_sec := 7 } true true).2 = true := by
  refine ⟨by decide, by decide, by decide⟩

/-- C3, amended. For a monotone clock: when the outstanding resize count is
positive, no tearing page flip is possible and the 500 ms window has not
expired, repaint is suppressed and the count is left unchanged, with the
waiting timestamp recorded at the first suppression (recorded even when
tearing then bypasses the suppression); once an output has been waiting for
more than 500 ms, rendering is allowed to proceed and the count is
force-reset to the sentinel -1, the waiting state being cleared. -/
theorem c3_repaint_amended (w : World) (o : Nat) (now : Timespec)
    (needs_frame can_tear : Bool)
    (hmono : timespec_to_msec (w.outputs o).waiting_since ≤ timespec_to_msec now)
    (hsane : timespec_to_msec now - timespec_to_msec (w.outputs o).waiting_since < 2 ^ 64) :
    (w.resize_count > 0
      → ((w.outputs o).waiting_since.tv_sec = 0
         ∨ timespec_to_msec now - timespec_to_msec (w.outputs o).waiting_since ≤ 500)
      → can_tear = false → needs_frame = true
      → (output_repaint w o now needs_frame can_tear).2 = false
        ∧ (output_repaint w o now needs_frame can_tear).1.resize_count = w.resize_count)
    ∧ (w.resize_count > 0 → (w.outputs o).waiting_since.tv_sec = 0 → needs_frame = true
      → ((output_repaint w o now needs_frame can_tear).1.outputs o).waiting_since = now)
    ∧ ((w.outputs o).waiting_since.tv_sec ≠ 0
      → timespec_to_msec now - timespec_to_msec (w.outputs o).waiting_since > 500
      → needs_frame = true
      → (output_repaint w o now needs_frame can_tear).2 = true
        ∧ (output_repaint w o now needs_frame can_tear).1.resize_count = -1
        ∧ ((output_repaint w o now needs_frame can_tear).1.outputs o).waiting_since.tv_sec
            = 0) := by
  have hu := u64_sub_eq _ _ hmono hsane
  refine ⟨?_, ?_, ?_⟩
  · intro hrc hwin htear hnf
    subst htear
    subst hnf
    unfold output_repaint allow_render
    by_cases hw : (w.outputs o).waiting_since.tv_sec = 0
    · simp [hw, hrc]
    · have hle : ¬(u64_sub (timespec_to_msec now)
          (timespec_to_msec (w.outputs o).waiting_since) > 500) := by
        rw [hu]
        rcases hwin with hwin | hwin
        · exact absurd hwin hw
        · omega
      simp [hw, hle, hrc]
  · intro hrc hw hnf
    subst hnf
    unfold output_repaint allow_render
    have hle : ¬(u64_sub (timespec_to_msec now)
        (timespec_to_msec (w.outputs o).waiting_since) > 500
        ∧ (w.outputs o).waiting_since.tv_sec ≠ 0) := by
      intro hcon
      exact hcon.2 hw
    cases can_tear <;> simp [hw, hrc]
  · intro hw hdelta hnf
    subst hnf
    have hgt : u64_sub (timespec_to_msec now)
        (timespec_to_msec (w.outputs o).waiting_since) > 500 := by rw [hu]; exact hdelta
    unfold output_repaint allow_render
    cases can_tear <;> simp [hw, hgt]

/-- C3, witness for the amended claim: output 0 has been waiting since second
1, it is now second 2, so more than 500 ms elapsed; the theorem applies and
rendering proceeds with the count force-reset to -1. -/
theorem c3_repaint_amended_witness :
    (output_repaint { w0 with outputs := fun _ => { state := st0, waiting_since := { tv_sec := 1 } } }
        0 { tv_sec := 2 } true false).2 = true
    ∧ (output_repaint { w0 with outputs := fun _ => { state := st0, waiting_since := { tv_sec := 1 } } }
        0 { tv_sec := 2 } true false).1.resize_count = -1 := by
  have h := c3_repaint_amended
    { w0 with outputs := fun _ => { state := st0, waiting_since := { tv_sec := 1 } } }
    0 { tv_sec := 2 } true false (by decide) (by decide)
  have h3 := h.2.2 (by decide) (by decide) rfl
  exact ⟨h3.1, h3.2.1⟩

end ClaimC3

section ClaimC5

@[simp]
theorem active_tag_schedule_tag (w : World) (o ws o2 : Nat) :
    ((transaction_schedule_tag w o ws).outputs o2).state.active_tag
      = (w.outputs o2).state.active_tag := by
  unfold transaction_schedule_tag
  by_cases h : o2 = o <;> simp [h, Function.update]

@[simp]
theorem active_workspace_schedule_tag (w : World) (o ws o2 : Nat) :
    ((transaction_schedule_tag w o ws).outputs o2).state.active_workspace
      = (w.outputs o2).state.active_workspace := by
  unfold transaction_schedule_tag
  by_cases h : o2 = o <;> simp [h, Function.update]

@[simp]
theorem active_tag_schedule_output (w : World) (o o2 : Nat) :
    ((transaction_schedule_output w o).outputs o2).state.active_tag
      = (w.outputs o2).state.active_tag := by
  unfold transaction_schedule_output
  by_cases h : o2 = o <;> simp [h, Function.update]

@[simp]
theorem active_workspace_schedule_output (w : World) (o o2 : Nat) :
    ((transaction_schedule_output w o).outputs o2).state.active_workspace
      = (w.outputs o2).state.active_workspace := by
  unfold transaction_schedule_output
  by_cases h : o2 = o <;> simp [h, Function.update]

/-- Characterization of the cwc_tag_find_first_tag scan: starting at index i,
when some bit at offset k with i + k below MAX_WORKSPACE is set, the scan
returns the first such index — its bit is set and every lower offset is
clear. -/
theorem find_first_go_spec (MAXW : Nat) :
    ∀ (n i tag : Nat), MAXW - i = n →
    (∃ k, i + k < MAXW ∧ (tag >>> k) &&& 1 = 1) →
    (i ≤ cwc_tag_find_first_tag_go MAXW i tag
     ∧ cwc_tag_find_first_tag_go MAXW i tag < MAXW
     ∧ (tag >>> (cwc_tag_find_first_tag_go MAXW i tag - i)) &&& 1 = 1
     ∧ ∀ m, m < cwc_tag_find_first_tag_go MAXW i tag - i → (tag >>> m) &&& 1 = 0) := by
  intro n
  induction n with
  | zero =>
    intro i tag hn hex
    obtain ⟨k, hk, _⟩ := hex
    omega
  | succ n ih =>
    intro i tag hn hex
    obtain ⟨k, hk, hbit⟩ := hex
    have hi : i < MAXW := by omega
    rw [cwc_tag_find_first_tag_go]
    rw [if_pos hi]
    by_cases hb : tag &&& 1 == 1
    · rw [if_pos hb]
      refine ⟨le_refl i, hi, ?_, ?_⟩
      · simpa using (by simpa using hb : tag &&& 1 = 1)
      · intro m hm
        omega
    · rw [if_neg hb]
      have hb' : ¬(tag &&& 1 = 1) := by simpa using hb
      have hk0 : k ≠ 0 := by
        intro h0
        subst h0
        exact hb' (by simpa using hbit)
      have hbit' : ((tag >>> 1) >>> (k - 1)) &&& 1 = 1 := by
        rw [← Nat.shiftRight_add]
        have : 1 + (k - 1) = k := by omega
        rw [this]
        exact hbit
      have hrec := ih (i + 1) (tag >>> 1) (by omega) ⟨k - 1, by omega, hbit'⟩
      obtain ⟨h1, h2, h3, h4⟩ := hrec
      refine ⟨by omega, h2, ?_, ?_⟩
      · have heq : (tag >>> 1) >>> (cwc_tag_find_first_tag_go MAXW (i + 1) (tag >>> 1) - (i + 1))
            = tag >>> (cwc_tag_find_first_tag_go MAXW (i + 1) (tag >>> 1) - i) := by
          rw [← Nat.shiftRight_add]
          congr 1
          omega
        rw [← heq]
        exact h3
      · intro m hm
        cases m with
        | zero =>
          have : tag &&& 1 = tag % 2 := Nat.and_one_is_mod tag
          simp only [Nat.shiftRight_zero]
          omega
        | succ m' =>
          have heq : (tag >>> 1) >>> m' = tag >>> (m' + 1) := by
            rw [← Nat.shiftRight_add]
            congr 1
            omega
          rw [← heq]
          exact h4 m' (by omega)

/-- C5. For an output whose active workspace is valid (at least 1) and whose
active tag contains its bit — the invariant every reachable output state
satisfies — and a newtag with at least one bit inside the workspace range:
after cwc_output_set_active_tag the active tag equals newtag; if the bit of
the previously active workspace is set in newtag the active workspace is
unchanged, and otherwise it becomes the lowest-numbered workspace whose bit
is set in newtag. -/
theorem c5_set_active_tag (env : Env) (w : World) (o : Nat) (newtag : Nat)
    (hws : 1 ≤ (w.outputs o).state.active_workspace)
    (hinv : ((w.outputs o).state.active_tag
        >>> ((w.outputs o).state.active_workspace - 1)) &&& 1 = 1)
    (hex : ∃ k, k + 1 < env.MAX_WORKSPACE ∧ (newtag >>> k) &&& 1 = 1) :
    ((cwc_output_set_active_tag env w o newtag).outputs o).state.active_tag = newtag
    ∧ ((newtag >>> ((w.outputs o).state.active_workspace - 1)) &&& 1 = 1
       → ((cwc_output_set_active_tag env w o newtag).outputs o).state.active_workspace
           = (w.outputs o).state.active_workspace)
    ∧ ((newtag >>> ((w.outputs o).state.active_workspace - 1)) &&& 1 = 0
       → (1 ≤ ((cwc_output_set_active_tag env w o newtag).outputs o).state.active_workspace
          ∧ ((cwc_output_set_active_tag env w o newtag).outputs o).state.active_workspace
              < env.MAX_WORKSPACE
          ∧ (newtag >>> (((cwc_output_set_active_tag env w o newtag).outputs
              o).state.active_workspace - 1)) &&& 1 = 1
          ∧ ∀ j, 1 ≤ j
              → j < ((cwc_output_set_active_tag env w o newtag).outputs
                  o).state.active_workspace
              → (newtag >>> (j - 1)) &&& 1 = 0)) := by
  by_cases heq : newtag == (w.outputs o).state.active_tag
  · have heq' : newtag = (w.outputs o).state.active_tag := by simpa using heq
    unfold cwc_output_set_active_tag
    rw [if_pos heq]
    refine ⟨heq'.symm ▸ rfl, fun _ => rfl, fun h0 => ?_⟩
    rw [heq'] at h0
    rw [h0] at hinv
    exact absurd hinv (by simp)
  · unfold cwc_output_set_active_tag
    rw [if_neg heq]
    dsimp only
    by_cases hbit : (newtag >>> ((w.outputs o).state.active_workspace - 1)) &&& 1 == 0
    · have hspec := find_first_go_spec env.MAX_WORKSPACE (env.MAX_WORKSPACE - 1) 1 newtag
        rfl (by
          obtain ⟨k, hk1, hk2⟩ := hex
          exact ⟨k, by omega, hk2⟩)
      rw [if_pos hbit]
      refine ⟨?_, fun h1 => ?_, fun _ => ?_⟩
      · simp [Function.update_same]
      · have hz : (newtag >>> ((w.outputs o).state.active_workspace - 1)) &&& 1 = 0 := by
          simpa using hbit
        rw [h1] at hz
        exact absurd hz (by simp)
      · unfold cwc_tag_find_first_tag at *
        obtain ⟨h1, h2, h3, h4⟩ := hspec
        simp only [active_tag_schedule_tag, active_tag_schedule_output,
          active_workspace_schedule_tag, active_workspace_schedule_output,
          Function.update_same]
        refine ⟨h1, h2, by simpa using h3, ?_⟩
        intro j hj1 hj2
        exact h4 (j - 1) (by omega)
    · rw [if_neg hbit]
      refine ⟨?_, fun _ => ?_, fun h0 => ?_⟩
      · simp [Function.update_same]
      · simp [Function.update_same]
      · exact absurd (by simpa using h0 :
          ((newtag >>> ((w.outputs o).state.active_workspace - 1)) &&& 1 == 0) = true) hbit

/-- C5, witness: output 0 starts with active tag 1 and workspace 1; setting
the active tag to 0b1100 moves the active workspace to workspace 3, the
lowest workspace of the new tag set. -/
theorem c5_set_active_tag_witness :
    ((cwc_output_set_active_tag env0 w0 0 12).outputs 0).state.active_tag = 12
    ∧ 1 ≤ ((cwc_output_set_active_tag env0 w0 0 12).outputs 0).state.active_workspace
    ∧ (12 >>> (((cwc_output_set_active_tag env0 w0 0 12).outputs
        0).state.active_workspace - 1)) &&& 1 = 1 := by
  have h := c5_set_active_tag env0 w0 0 12 (by decide) (by decide)
    ⟨2, by decide, by decide⟩
  have h3 := h.2.2 (by decide)
  exact ⟨h.1, h3.1, h3.2.2.1⟩

end ClaimC5

section ClaimC2

@[simp]
theorem set_tiled_is_x11 (t : Toplevel) (e : Nat) :
    (cwc_toplevel_set_tiled t e).is_x11 = t.is_x11 := by
  unfold cwc_toplevel_set_tiled
  split <;> rfl

@[simp]
theorem set_tiled_geometry (t : Toplevel) (e : Nat) :
    (cwc_toplevel_set_tiled t e).geometry = t.geometry := by
  unfold cwc_toplevel_set_tiled
  split <;> rfl

@[simp]
theorem set_tiled_resize_serial (t : Toplevel) (e : Nat) :
    (cwc_toplevel_set_tiled t e).resize_serial = t.resize_serial := by
  unfold cwc_toplevel_set_tiled
  split <;> rfl

@[simp]
theorem set_tiled_id (t : Toplevel) (e : Nat) :
    (cwc_toplevel_set_tiled t e).id = t.id := by
  unfold cwc_toplevel_set_tiled
  split <;> rfl

@[simp]
theorem is_floating_resize_count (w : World) (c : Container) (n : Int) :
    cwc_container_is_floating { w with resize_count := n } c
      = cwc_container_is_floating w c := rfl

@[simp]
theorem is_floating_updateToplevel (w : World) (c : Container) (tid : Nat)
    (f : Toplevel → Toplevel) :
    cwc_container_is_floating w (updateToplevel c tid f)
      = cwc_container_is_floating w c := rfl

@[simp]
theorem is_visible_set_tiled (w : World) (c : Container) (t : Toplevel) (e : Nat) :
    cwc_toplevel_is_visible w c (cwc_toplevel_set_tiled t e)
      = cwc_toplevel_is_visible w c t := by
  unfold cwc_toplevel_is_visible
  rw [set_tiled_id]

/-- C2. Increment side: for an xdg (non-x11) mapped toplevel processed by the
bottom-to-top resize pass, the outstanding resize count changes exactly
when the toplevel is asked to resize to a size different from its committed
geometry while visible and with no pending resize serial — and then it
changes by exactly one (the count was nonnegative). Decrement side: a
non-initial surface commit of a member of a non-floating container
decrements the count exactly when the toplevel holds a pending resize
serial and the commit acknowledges a configure serial at least as large,
also clearing the pending serial; a stale (lower) acknowledgement leaves
the count untouched. -/
theorem c2_resize_count_inc_dec (env : Env) (w : World) (c : Container)
    (t : Toplevel) (rect : Int × Int) (tid : Nat) (ack : Nat)
    (hx : t.is_x11 = false) (hm : t.mapped = true) (hrc : 0 ≤ w.resize_count)
    (hfind : c.toplevels.find? (fun tl => tl.id == tid) = some t)
    (hfl : cwc_container_is_floating w c = false) :
    ((all_toplevel_set_size w c rect t).1.resize_count ≠ w.resize_count
      ↔ ((t.geometry.width ≠ rect.1 ∨ t.geometry.height ≠ rect.2)
         ∧ cwc_toplevel_is_visible w c t = true ∧ t.resize_serial = 0))
    ∧ (((t.geometry.width ≠ rect.1 ∨ t.geometry.height ≠ rect.2)
        ∧ cwc_toplevel_is_visible w c t = true ∧ t.resize_serial = 0)
       → (all_toplevel_set_size w c rect t).1.resize_count = w.resize_count + 1)
    ∧ ((on_surface_commit env w c tid false ack).1.resize_count
        = (if t.resize_serial ≠ 0 ∧ t.resize_serial ≤ ack then w.resize_count - 1
           else w.resize_count)) := by
  have hchar : (all_toplevel_set_size w c rect t).1.resize_count
      = (if ((t.geometry.width ≠ rect.1 ∨ t.geometry.height ≠ rect.2)
             ∧ cwc_toplevel_is_visible w c t = true ∧ t.resize_serial = 0)
         then MAX 1 (w.resize_count + 1) else w.resize_count) := by
    unfold all_toplevel_set_size cwc_toplevel_set_size cwc_toplevel_get_geometry
    by_cases hgw : t.geometry.width = rect.1 <;>
      by_cases hgh : t.geometry.height = rect.2 <;>
        by_cases hv : cwc_toplevel_is_visible w c t = true <;>
          by_cases hs : t.resize_serial = 0 <;>
            simp [hx, hfl, hgw, hgh, hv, hs]
  have hcomm : (on_surface_commit env w c tid false ack).1.resize_count
      = (if t.resize_serial ≠ 0 ∧ t.resize_serial ≤ ack then w.resize_count - 1
         else w.resize_count) := by
    unfold on_surface_commit
    rw [hfind]
    dsimp only
    by_cases hd1 : t.resize_serial = 0 <;> by_cases hd2 : t.resize_serial ≤ ack <;>
      · simp only [hd1, hd2]
        split <;> split <;> simp_all
  have hmax1 : MAX 1 (w.resize_count + 1) = w.resize_count + 1 := by
    unfold MAX
    split <;> omega
  refine ⟨?_, ?_, hcomm⟩
  · rw [hchar]
    by_cases hcond : ((t.geometry.width ≠ rect.1 ∨ t.geometry.height ≠ rect.2)
        ∧ cwc_toplevel_is_visible w c t = true ∧ t.resize_serial = 0)
    · rw [if_pos hcond, hmax1]
      exact ⟨fun _ => hcond, fun _ => by omega⟩
    · rw [if_neg hcond]
      simp [hcond]
  · intro hcond
    rw [hchar, if_pos hcond, hmax1]

/-- World whose workspaces use the BSP layout (so containers are not
floating). -/
def c2_w : World :=
  { outputs := fun _ => { state := { tag_info := fun _ => { layout_mode := CWC_LAYOUT_BSP } } } }

/-- A mapped visible xdg toplevel with no pending resize serial. -/
def c2_t : Toplevel := { id := 5, geometry := { width := 100, height := 100 } }

/-- The same toplevel with a pending resize serial 7. -/
def c2_t2 : Toplevel :=
  { id := 5, geometry := { width := 100, height := 100 }, resize_serial := 7 }

/-- A tiled container holding c2_t as its front toplevel. -/
def c2_c : Container := { id := 0, output := 0, toplevels := [c2_t], stack := [5] }

/-- A tiled container holding c2_t2 as its front toplevel. -/
def c2_c2 : Container := { id := 0, output := 0, toplevels := [c2_t2], stack := [5] }

/-- C2, witness: resizing the visible pending-free toplevel from 100x100 to
80x80 increments the count by one; a commit acknowledging serial 7 against
pending serial 7 decrements it by one. -/
theorem c2_resize_count_inc_dec_witness :
    (all_toplevel_set_size c2_w c2_c (80, 80) c2_t).1.resize_count
      = c2_w.resize_count + 1
    ∧ (on_surface_commit env0 c2_w c2_c2 5 false 7).1.resize_count
      = c2_w.resize_count - 1 := by
  have h1 := c2_resize_count_inc_dec env0 c2_w c2_c c2_t (80, 80) 5 0
    (by decide) (by decide) (by decide) (by decide) (by decide)
  have h2 := c2_resize_count_inc_dec env0 c2_w c2_c2 c2_t2 (80, 80) 5 7
    (by decide) (by decide) (by decide) (by decide) (by decide)
  refine ⟨h1.2.1 ⟨Or.inl (by decide), by decide, rfl⟩, ?_⟩
  have h3 := h2.2.2
  rw [if_pos ⟨by decide, by decide⟩] at h3
  exact h3

end ClaimC2

section ClaimC7

/-- The gap width of the active workspace of the container's output, the
`gaps` local of cwc_container_set_size. -/
def gapsOf (w : World) (c : Container) : Int :=
  (cwc_output_get_current_tag_info w c.output).useless_gaps

/-- The inner surface length cwc_container_set_size derives from a requested
container length: subtract border and gaps on both sides, floor at
MIN_WIDTH. -/
def innerLen (env : Env) (w : World) (c : Container) (len : Int) : Int :=
  MAX (len - (cwc_border_get_thickness c + gapsOf w c) * 2) env.MIN_WIDTH

/-- The stored container length resulting from a requested length: inner
surface plus border plus gaps on both sides. -/
def outerLen (env : Env) (w : World) (c : Container) (len : Int) : Int :=
  innerLen env w c len + cwc_border_get_thickness c * 2 + gapsOf w c * 2

/-- Two worlds agree on every output's active workspace and on every
workspace's gap width — all that the geometry pipeline reads back from the
world after a transaction has been scheduled. -/
def wGapsEq (w w2 : World) : Prop :=
  ∀ o, ((w2.outputs o).state.active_workspace = (w.outputs o).state.active_workspace)
    ∧ ∀ i, ((w2.outputs o).state.tag_info i).useless_gaps
        = ((w.outputs o).state.tag_info i).useless_gaps

@[simp]
theorem tag_info_gaps_schedule_tag (w : World) (o ws o2 i : Nat) :
    (((transaction_schedule_tag w o ws).outputs o2).state.tag_info i).useless_gaps
      = (((w.outputs o2).state.tag_info i)).useless_gaps := by
  unfold transaction_schedule_tag
  by_cases h : o2 = o <;> simp [h, Function.update]
  split <;> rfl

theorem MAX_int_eq_left {a b : Int} (h : b ≤ a) : MAX a b = a := by
  unfold MAX
  split <;> omega

@[simp]
theorem set_tiled_min_width (t : Toplevel) (e : Nat) :
    (cwc_toplevel_set_tiled t e).min_width = t.min_width := by
  unfold cwc_toplevel_set_tiled
  split <;> rfl

@[simp]
theorem set_tiled_min_height (t : Toplevel) (e : Nat) :
    (cwc_toplevel_set_tiled t e).min_height = t.min_height := by
  unfold cwc_toplevel_set_tiled
  split <;> rfl

@[simp]
theorem all_set_floating_min_width (s : Bool) (t : Toplevel) :
    (all_toplevel_set_floating s t).min_width = t.min_width := by
  unfold all_toplevel_set_floating
  split <;> simp

@[simp]
theorem all_set_floating_min_height (s : Bool) (t : Toplevel) :
    (all_toplevel_set_floating s t).min_height = t.min_height := by
  unfold all_toplevel_set_floating
  split <;> simp

theorem outputs_all_set_size (w : World) (c : Container) (rect : Int × Int)
    (t : Toplevel) :
    (all_toplevel_set_size w c rect t).1.outputs = w.outputs := by
  unfold all_toplevel_set_size cwc_toplevel_set_size
  dsimp only
  repeat' split
  all_goals rfl

theorem min_width_all_set_size (w : World) (c : Container) (rect : Int × Int)
    (t : Toplevel) :
    (all_toplevel_set_size w c rect t).2.2.min_width = t.min_width := by
  unfold all_toplevel_set_size cwc_toplevel_set_size
  dsimp only
  repeat' split
  all_goals simp

theorem min_height_all_set_size (w : World) (c : Container) (rect : Int × Int)
    (t : Toplevel) :
    (all_toplevel_set_size w c rect t).2.2.min_height = t.min_height := by
  unfold all_toplevel_set_size cwc_toplevel_set_size
  dsimp only
  repeat' split
  all_goals simp

/-- Under inert minimum sizes the per-toplevel resize step hands the rect on
unchanged: the floating clamp MAX(surface, min) collapses to the surface. -/
theorem all_set_size_rect (w : World) (c : Container) (rect : Int × Int)
    (t : Toplevel) (hw : t.min_width ≤ rect.1) (hh : t.min_height ≤ rect.2) :
    (all_toplevel_set_size w c rect t).2.1 = rect := by
  unfold all_toplevel_set_size
  dsimp only
  repeat' split
  all_goals simp [MAX_int_eq_left hw, MAX_int_eq_left hh]

/-- Shape of one fold step of the resize pass: the world's outputs are
untouched and the container changes only in its toplevels, whose minimum
sizes all come from members of the original list. -/
theorem set_size_step_shape (w0 : World) (rect : Int × Int) (c0 : Container)
    (tid : Nat) :
    (set_size_fold_step (w0, rect, c0) tid).1.outputs = w0.outputs
    ∧ ∃ tls, (set_size_fold_step (w0, rect, c0) tid).2.2 = { c0 with toplevels := tls }
      ∧ ∀ tl ∈ tls, ∃ tl0 ∈ c0.toplevels,
          tl.min_width = tl0.min_width ∧ tl.min_height = tl0.min_height := by
  unfold set_size_fold_step
  dsimp only
  split
  · exact ⟨rfl, c0.toplevels, rfl, fun tl h => ⟨tl, h, rfl, rfl⟩⟩
  · rename_i t hf
    have ht : t ∈ c0.toplevels := List.mem_of_find?_eq_some hf
    refine ⟨outputs_all_set_size w0 c0 rect t,
      c0.toplevels.map
        (fun x : Toplevel =>
          if x.id == tid then (all_toplevel_set_size w0 c0 rect t).2.2 else x),
      rfl, ?_⟩
    intro tl h
    rw [List.mem_map] at h
    obtain ⟨x, hx, he⟩ := h
    by_cases hid : (x.id == tid) = true
    · rw [if_pos hid] at he
      subst he
      exact ⟨t, ht, min_width_all_set_size w0 c0 rect t,
        min_height_all_set_size w0 c0 rect t⟩
    · rw [if_neg hid] at he
      exact ⟨x, hx, by rw [he], by rw [he]⟩

/-- Under inert minimum sizes one fold step hands the rect on unchanged. -/
theorem set_size_step_rect (w0 : World) (rect : Int × Int) (c0 : Container)
    (tid : Nat)
    (hmin : ∀ tl ∈ c0.toplevels, tl.min_width ≤ rect.1 ∧ tl.min_height ≤ rect.2) :
    (set_size_fold_step (w0, rect, c0) tid).2.1 = rect := by
  unfold set_size_fold_step
  dsimp only
  split
  · rfl
  · rename_i t hf
    have ht : t ∈ c0.toplevels := List.mem_of_find?_eq_some hf
    exact all_set_size_rect w0 c0 rect t (hmin t ht).1 (hmin t ht).2

/-- Shape of the whole bottom-to-top fold: outputs untouched, only the
toplevels list of the container changes, minimum sizes drawn from original
members. -/
theorem foldl_set_size_shape (l : List Nat) :
    ∀ (w0 : World) (rect : Int × Int) (c0 : Container),
    (l.foldl set_size_fold_step (w0, rect, c0)).1.outputs = w0.outputs
    ∧ ∃ tls, (l.foldl set_size_fold_step (w0, rect, c0)).2.2 = { c0 with toplevels := tls }
      ∧ ∀ tl ∈ tls, ∃ tl0 ∈ c0.toplevels,
          tl.min_width = tl0.min_width ∧ tl.min_height = tl0.min_height := by
  induction l with
  | nil =>
    intro w0 rect c0
    exact ⟨rfl, c0.toplevels, rfl, fun tl h => ⟨tl, h, rfl, rfl⟩⟩
  | cons a l ih =>
    intro w0 rect c0
    rw [List.foldl_cons]
    obtain ⟨ho1, tls1, hc1, hm1⟩ := set_size_step_shape w0 rect c0 a
    obtain ⟨ho2, tls2, hc2, hm2⟩ := ih (set_size_fold_step (w0, rect, c0) a).1
      (set_size_fold_step (w0, rect, c0) a).2.1 (set_size_fold_step (w0, rect, c0) a).2.2
    refine ⟨ho2.trans ho1, tls2, hc2.trans (by rw [hc1]), ?_⟩
    intro tl h
    obtain ⟨t1, ht1, e1, e2⟩ := hm2 tl h
    rw [hc1] at ht1
    obtain ⟨t0, ht0, f1, f2⟩ := hm1 t1 ht1
    exact ⟨t0, ht0, e1.trans f1, e2.trans f2⟩

/-- Under inert minimum sizes the whole fold hands the rect through
unchanged. -/
theorem foldl_set_size_rect (l : List Nat) :
    ∀ (w0 : World) (rect : Int × Int) (c0 : Container),
    (∀ tl ∈ c0.toplevels, tl.min_width ≤ rect.1 ∧ tl.min_height ≤ rect.2) →
    (l.foldl set_size_fold_step (w0, rect, c0)).2.1 = rect := by
  induction l with
  | nil =>
    intro w0 rect c0 _
    rfl
  | cons a l ih =>
    intro w0 rect c0 hmin
    rw [List.foldl_cons]
    obtain ⟨_, tls1, hc1, hm1⟩ := set_size_step_shape w0 rect c0 a
    have hr1 := set_size_step_rect w0 rect c0 a hmin
    have hmin2 : ∀ tl ∈ (set_size_fold_step (w0, rect, c0) a).2.2.toplevels,
        tl.min_width ≤ (set_size_fold_step (w0, rect, c0) a).2.1.1
        ∧ tl.min_height ≤ (set_size_fold_step (w0, rect, c0) a).2.1.2 := by
      intro tl h
      rw [hc1] at h
      obtain ⟨t0, ht0, e1, e2⟩ := hm1 tl h
      rw [hr1, e1, e2]
      exact hmin t0 ht0
    have hres := ih (set_size_fold_step (w0, rect, c0) a).1
      (set_size_fold_step (w0, rect, c0) a).2.1 (set_size_fold_step (w0, rect, c0) a).2.2
      hmin2
    exact hres.trans hr1

/-- cwc_container_set_size written with its fold accumulator explicit (a
definitional restatement used to rewrite goals). -/
theorem set_size_eq (env : Env) (w : World) (c : Container) (cw ch : Int) :
    cwc_container_set_size env w c cw ch =
      ((c.stack.foldl set_size_fold_step
          (w, (innerLen env w c cw, innerLen env w c ch), c)).1,
       { save_floating_box_size
           (c.stack.foldl set_size_fold_step
             (w, (innerLen env w c cw, innerLen env w c ch), c)).1
           (cwc_border_resize
             (c.stack.foldl set_size_fold_step
               (w, (innerLen env w c cw, innerLen env w c ch), c)).2.2
             ((c.stack.foldl set_size_fold_step
               (w, (innerLen env w c cw, innerLen env w c ch), c)).2.1.1
               + cwc_border_get_thickness c * 2)
             ((c.stack.foldl set_size_fold_step
               (w, (innerLen env w c cw, innerLen env w c ch), c)).2.1.2
               + cwc_border_get_thickness c * 2))
           cw ch
         with
         width := (c.stack.foldl set_size_fold_step
             (w, (innerLen env w c cw, innerLen env w c ch), c)).2.1.1
           + cwc_border_get_thickness c * 2 + gapsOf w c * 2
         height := (c.stack.foldl set_size_fold_step
             (w, (innerLen env w c cw, innerLen env w c ch), c)).2.1.2
           + cwc_border_get_thickness c * 2 + gapsOf w c * 2 }) := rfl

theorem border_resize_shape (c : Container) (a b : Int) :
    ∃ bw bh, cwc_border_resize c a b
      = { c with border_width := bw, border_height := bh } := by
  unfold cwc_border_resize
  split
  · exact ⟨c.border_width, c.border_height, rfl⟩
  · split
    · exact ⟨c.border_width, c.border_height, rfl⟩
    · exact ⟨a, b, rfl⟩

theorem save_floating_box_size_shape (w : World) (c : Container) (sw sh : Int) :
    save_floating_box_size w c sw sh
      = { c with floating_box :=
            if cwc_container_should_save_floating_box w c = true
            then { c.floating_box with width := sw, height := sh }
            else c.floating_box } := by
  unfold save_floating_box_size
  split <;> rfl

theorem should_save_outputs_congr (w w2 : World) (c : Container)
    (h : w2.outputs = w.outputs) :
    cwc_container_should_save_floating_box w2 c
      = cwc_container_should_save_floating_box w c := by
  unfold cwc_container_should_save_floating_box cwc_container_is_floating
  rw [h]

/-- Characterization of cwc_container_set_size when every member toplevel's
minimum size fits inside the derived surface: the stored size is the
requested size floored at MIN_WIDTH plus border and gaps, position, state
and strategy handle are untouched, the floating box is saved exactly for a
floating non-maximized non-fullscreen container, and the world's outputs
are untouched. -/
theorem set_size_char (env : Env) (w : World) (c : Container) (cw ch : Int)
    (hmin : ∀ tl ∈ c.toplevels,
      tl.min_width ≤ innerLen env w c cw ∧ tl.min_height ≤ innerLen env w c ch) :
    ∃ tls bw bh,
      (cwc_container_set_size env w c cw ch).2 =
        { c with
          width := outerLen env w c cw
          height := outerLen env w c ch
          border_width := bw
          border_height := bh
          floating_box :=
            if cwc_container_should_save_floating_box w c = true
            then { c.floating_box with width := cw, height := ch }
            else c.floating_box
          toplevels := tls }
      ∧ (∀ tl ∈ tls, ∃ tl0 ∈ c.toplevels,
          tl.min_width = tl0.min_width ∧ tl.min_height = tl0.min_height)
      ∧ (cwc_container_set_size env w c cw ch).1.outputs = w.outputs := by
  obtain ⟨ho, tls, hc, hmins⟩ := foldl_set_size_shape c.stack w
    (innerLen env w c cw, innerLen env w c ch) c
  have hrect := foldl_set_size_rect c.stack w
    (innerLen env w c cw, innerLen env w c ch) c hmin
  obtain ⟨bw, bh, hbr⟩ := border_resize_shape { c with toplevels := tls }
    (innerLen env w c cw + cwc_border_get_thickness c * 2)
    (innerLen env w c ch + cwc_border_get_thickness c * 2)
  refine ⟨tls, bw, bh, ?_, hmins, ?_⟩
  · rw [set_size_eq]
    simp only [hrect, hc, ho]
    rw [hbr, save_floating_box_size_shape,
      should_save_outputs_congr w _ _ ho]
    rfl
  · rw [set_size_eq]
    exact ho

theorem save_floating_box_position_self (w : World) (c : Container) (px py : Int)
    (hx : px = c.floating_box.x) (hy : py = c.floating_box.y) :
    save_floating_box_position w c px py = c := by
  subst hx hy
  unfold save_floating_box_position
  split <;> rfl

theorem update_container_output_none (env : Env) (w : World) (c : Container)
    (h_at : ∀ x y, env.output_at x y = none) :
    update_container_output env w c = (w, c) := by
  unfold update_container_output
  simp only [h_at]

theorem if_fb_self (P : Prop) [Decidable P] (fb : WlrBox) :
    (if P then { fb with width := fb.width, height := fb.height } else fb) = fb := by
  split <;> rfl

/-- cwc_container_set_size applied with the container's own floating box as
the requested size leaves the floating box unchanged in both save
branches. -/
theorem set_size_fb_self (env : Env) (w : World) (c : Container)
    (hmin : ∀ tl ∈ c.toplevels,
      tl.min_width ≤ innerLen env w c c.floating_box.width
      ∧ tl.min_height ≤ innerLen env w c c.floating_box.height) :
    ∃ tls bw bh,
      (cwc_container_set_size env w c
          c.floating_box.width c.floating_box.height).2 =
        { c with
          width := outerLen env w c c.floating_box.width
          height := outerLen env w c c.floating_box.height
          border_width := bw
          border_height := bh
          toplevels := tls }
      ∧ (∀ tl ∈ tls, ∃ tl0 ∈ c.toplevels,
          tl.min_width = tl0.min_width ∧ tl.min_height = tl0.min_height)
      ∧ (cwc_container_set_size env w c
          c.floating_box.width c.floating_box.height).1.outputs = w.outputs := by
  obtain ⟨tls, bw, bh, hsz, hm, ho⟩ := set_size_char env w c
    c.floating_box.width c.floating_box.height hmin
  refine ⟨tls, bw, bh, ?_, hm, ho⟩
  rw [hsz, if_fb_self]

/-- Characterization of cwc_container_set_floating(true) for a
configure-allowed container on a single-output layout whose member
toplevels' minimum sizes fit inside the restored surface: position and size
come from the floating box (which itself is unchanged), the floating flag
is set, any strategy handle is disabled, and the world keeps every output's
active workspace and gap widths. -/
theorem set_floating_true_char (env : Env) (w : World) (c : Container)
    (h_at : ∀ x y, env.output_at x y = none)
    (hall : cwc_container_is_configure_allowed c = true)
    (hmin : ∀ tl ∈ c.toplevels,
      tl.min_width ≤ innerLen env w c c.floating_box.width
      ∧ tl.min_height ≤ innerLen env w c c.floating_box.height) :
    ∃ tls bw bh,
      (cwc_container_set_floating env w c true).2 =
        { c with
          x := c.floating_box.x
          y := c.floating_box.y
          width := outerLen env w c c.floating_box.width
          height := outerLen env w c c.floating_box.height
          state := { c.state with floating := true }
          bsp_node := c.bsp_node.map (fun n => { n with enabled := false })
          border_width := bw
          border_height := bh
          toplevels := tls }
      ∧ (∀ tl ∈ tls, ∃ tl0 ∈ c.toplevels,
          tl.min_width = tl0.min_width ∧ tl.min_height = tl0.min_height)
      ∧ wGapsEq w (cwc_container_set_floating env w c true).1 := by
  have hposg : cwc_container_set_position_global env w c
      c.floating_box.x c.floating_box.y
      = (w, { c with x := c.floating_box.x, y := c.floating_box.y }) := by
    unfold cwc_container_set_position_global
    dsimp only
    rw [save_floating_box_position_self w
      { c with x := c.floating_box.x, y := c.floating_box.y }
      c.floating_box.x c.floating_box.y rfl rfl]
    rw [update_container_output_none env w _ h_at]
  have hrest : cwc_container_restore_floating_box env w c
      = cwc_container_set_size env w
        { c with x := c.floating_box.x, y := c.floating_box.y }
        ({ c with x := c.floating_box.x, y := c.floating_box.y } : Container).floating_box.width
        ({ c with x := c.floating_box.x, y := c.floating_box.y } : Container).floating_box.height := by
    unfold cwc_container_restore_floating_box
    dsimp only
    rw [hposg]
  obtain ⟨tls, bw, bh, hsz, hmins, ho⟩ := set_size_fb_self env w
    { c with x := c.floating_box.x, y := c.floating_box.y } hmin
  have hflo : cwc_container_set_floating env w c true
      = ((transaction_schedule_tag
            (cwc_container_set_size env w
              { c with x := c.floating_box.x, y := c.floating_box.y }
              ({ c with x := c.floating_box.x, y := c.floating_box.y } : Container).floating_box.width
              ({ c with x := c.floating_box.x, y := c.floating_box.y } : Container).floating_box.height).1
            c.output
            (((cwc_container_set_size env w
                { c with x := c.floating_box.x, y := c.floating_box.y }
                ({ c with x := c.floating_box.x, y := c.floating_box.y } : Container).floating_box.width
                ({ c with x := c.floating_box.x, y := c.floating_box.y } : Container).floating_box.height).1.outputs
              c.output).state.active_workspace)),
         { c with
           x := c.floating_box.x
           y := c.floating_box.y
           width := outerLen env w c c.floating_box.width
           height := outerLen env w c c.floating_box.height
           state := { c.state with floating := true }
           bsp_node := c.bsp_node.map (fun n => { n with enabled := false })
           border_width := bw
           border_height := bh
           toplevels := tls.map (all_toplevel_set_floating true) }) := by
    unfold cwc_container_set_floating
    simp only [hall, Bool.not_true, Bool.false_eq_true, if_false, if_true]
    rw [hrest, hsz]
    cases hb : c.bsp_node with
    | none =>
      simp only [hb]
      rfl
    | some n =>
      simp only [hb]
      rfl
  refine ⟨tls.map (all_toplevel_set_floating true), bw, bh, ?_, ?_, ?_⟩
  · rw [hflo]
  · intro tl h
    rw [List.mem_map] at h
    obtain ⟨x, hx, he⟩ := h
    obtain ⟨t0, ht0, e1, e2⟩ := hmins x hx
    refine ⟨t0, ht0, ?_, ?_⟩
    · rw [← he, all_set_floating_min_width, e1]
    · rw [← he, all_set_floating_min_height, e2]
  · rw [hflo]
    intro o
    refine ⟨?_, fun i => ?_⟩
    · rw [active_workspace_schedule_tag]
      rw [ho]
    · rw [tag_info_gaps_schedule_tag]
      rw [ho]

/-- World whose workspaces all use the BSP layout, so a container without the
floating flag counts as tiled. -/
def c7_w : World :=
  { outputs := fun _ =>
      { state := { tag_info := fun _ => { layout_mode := CWC_LAYOUT_BSP } } } }

/-- A toplevel whose minimum size (200x200) exceeds the container's restored
surface (100x100) and whose committed geometry (50x50) differs from it. -/
def c7_t : Toplevel :=
  { id := 1, geometry := { width := 50, height := 50 },
    min_width := 200, min_height := 200 }

/-- A tiled container with a 104x104 floating box and a 2px border, holding
c7_t. -/
def c7_c : Container :=
  { id := 0, output := 0, border_thickness := 2,
    floating_box := { x := 10, y := 10, width := 104, height := 104 },
    toplevels := [c7_t], stack := [1] }

/-- C7, counterexample: the first set_floating(true) sizes the member under
tiled rules (no minimum-size clamp: the restore runs before the FLOATING
bit is set), storing width 104; the second call finds the container
floating, clamps the 100-wide surface up to the toplevel's 200 minimum and
stores width 204 — two calls do not equal one. -/
theorem c7_set_floating_cex :
    (cwc_container_set_floating env0
        (cwc_container_set_floating env0 c7_w c7_c true).1
        (cwc_container_set_floating env0 c7_w c7_c true).2 true).2.width
      ≠ (cwc_container_set_floating env0 c7_w c7_c true).2.width
    ∧ (cwc_container_set_floating env0 c7_w c7_c true).2.width = 104
    ∧ (cwc_container_set_floating env0
        (cwc_container_set_floating env0 c7_w c7_c true).1
        (cwc_container_set_floating env0 c7_w c7_c true).2 true).2.width = 204 := by
  refine ⟨by decide, by decide, by decide⟩

/-- C7, amended: on a single-output layout, when every member toplevel's
minimum size fits inside the surface derived from the floating box (border
and gaps subtracted, floored at MIN_WIDTH), cwc_container_set_floating(true)
is idempotent on position, size, container state (in particular the
floating flag) and the strategy-handle enablement. -/
theorem c7_set_floating_idem_amended (env : Env) (w : World) (c : Container)
    (h_at : ∀ x y, env.output_at x y = none)
    (hmin : ∀ tl ∈ c.toplevels,
      tl.min_width ≤ innerLen env w c c.floating_box.width
      ∧ tl.min_height ≤ innerLen env w c c.floating_box.height) :
    (cwc_container_set_floating env
        (cwc_container_set_floating env w c true).1
        (cwc_container_set_floating env w c true).2 true).2.x
      = (cwc_container_set_floating env w c true).2.x
    ∧ (cwc_container_set_floating env
        (cwc_container_set_floating env w c true).1
        (cwc_container_set_floating env w c true).2 true).2.y
      = (cwc_container_set_floating env w c true).2.y
    ∧ (cwc_container_set_floating env
        (cwc_container_set_floating env w c true).1
        (cwc_container_set_floating env w c true).2 true).2.width
      = (cwc_container_set_floating env w c true).2.width
    ∧ (cwc_container_set_floating env
        (cwc_container_set_floating env w c true).1
        (cwc_container_set_floating env w c true).2 true).2.height
      = (cwc_container_set_floating env w c true).2.height
    ∧ (cwc_container_set_floating env
        (cwc_container_set_floating env w c true).1
        (cwc_container_set_floating env w c true).2 true).2.state
      = (cwc_container_set_floating env w c true).2.state
    ∧ (cwc_container_set_floating env
        (cwc_container_set_floating env w c true).1
        (cwc_container_set_floating env w c true).2 true).2.bsp_node
      = (cwc_container_set_floating env w c true).2.bsp_node := by
  by_cases hall : cwc_container_is_configure_allowed c = true
  · obtain ⟨tls, bw, bh, hc1, hm1, hg1⟩ := set_floating_true_char env w c h_at hall hmin
    have hx1 : (cwc_container_set_floating env w c true).2.x = c.floating_box.x := by
      rw [hc1]
    have hy1 : (cwc_container_set_floating env w c true).2.y = c.floating_box.y := by
      rw [hc1]
    have hw1 : (cwc_container_set_floating env w c true).2.width
        = outerLen env w c c.floating_box.width := by
      rw [hc1]
    have hh1 : (cwc_container_set_floating env w c true).2.height
        = outerLen env w c c.floating_box.height := by
      rw [hc1]
    have hs1 : (cwc_container_set_floating env w c true).2.state
        = { c.state with floating := true } := by
      rw [hc1]
    have hb1 : (cwc_container_set_floating env w c true).2.bsp_node
        = c.bsp_node.map (fun n => { n with enabled := false }) := by
      rw [hc1]
    have hfb : (cwc_container_set_floating env w c true).2.floating_box
        = c.floating_box := by
      rw [hc1]
    have hout : (cwc_container_set_floating env w c true).2.output = c.output := by
      rw [hc1]
    have hall2 : cwc_container_is_configure_allowed
        (cwc_container_set_floating env w c true).2 = true := by
      unfold cwc_container_is_configure_allowed cwc_container_is_fullscreen
        cwc_container_is_maximized at hall ⊢
      rw [hs1]
      exact hall
    have hth : cwc_border_get_thickness (cwc_container_set_floating env w c true).2
        = cwc_border_get_thickness c := by
      unfold cwc_border_get_thickness
      rw [hc1]
    have hgaps : gapsOf (cwc_container_set_floating env w c true).1
        (cwc_container_set_floating env w c true).2 = gapsOf w c := by
      unfold gapsOf cwc_output_get_current_tag_info cwc_output_get_tag
      rw [hout, (hg1 c.output).1, (hg1 c.output).2]
    have hil : ∀ len : Int, innerLen env (cwc_container_set_floating env w c true).1
        (cwc_container_set_floating env w c true).2 len = innerLen env w c len := by
      intro len
      unfold innerLen
      rw [hgaps, hth]
    have hol : ∀ len : Int, outerLen env (cwc_container_set_floating env w c true).1
        (cwc_container_set_floating env w c true).2 len = outerLen env w c len := by
      intro len
      unfold outerLen
      rw [hil, hgaps, hth]
    have hmin2 : ∀ tl ∈ (cwc_container_set_floating env w c true).2.toplevels,
        tl.min_width ≤ innerLen env (cwc_container_set_floating env w c true).1
          (cwc_container_set_floating env w c true).2
          (cwc_container_set_floating env w c true).2.floating_box.width
        ∧ tl.min_height ≤ innerLen env (cwc_container_set_floating env w c true).1
          (cwc_container_set_floating env w c true).2
          (cwc_container_set_floating env w c true).2.floating_box.height := by
      intro tl h
      rw [hc1] at h
      obtain ⟨t0, ht0, e1, e2⟩ := hm1 tl h
      refine ⟨?_, ?_⟩
      · rw [hfb, hil, e1]
        exact (hmin t0 ht0).1
      · rw [hfb, hil, e2]
        exact (hmin t0 ht0).2
    obtain ⟨tls2, bw2, bh2, hc2, hm2, hg2⟩ := set_floating_true_char env
      (cwc_container_set_floating env w c true).1
      (cwc_container_set_floating env w c true).2 h_at hall2 hmin2
    refine ⟨?_, ?_, ?_, ?_, ?_, ?_⟩
    · rw [hc2, hfb, hx1]
    · rw [hc2, hfb, hy1]
    · rw [hc2, hfb, hol, hw1]
    · rw [hc2, hfb, hol, hol, hh1]
    · rw [hc2, hs1]
    · rw [hc2, hb1]
      cases hbn : c.bsp_node <;> rfl
  · have hnc : cwc_container_set_floating env w c true = (w, c) := by
      unfold cwc_container_set_floating
      have h0 : cwc_container_is_configure_allowed c = false := by
        revert hall
        cases cwc_container_is_configure_allowed c <;> simp
      simp [h0]
    rw [hnc]
    dsimp only
    rw [hnc]
    exact ⟨rfl, rfl, rfl, rfl, rfl, rfl⟩

/-- A floating-layout container with one unconstrained toplevel for the
amended-theorem witness. -/
def c7_cw : Container :=
  { id := 0, output := 0,
    floating_box := { x := 5, y := 6, width := 100, height := 90 },
    toplevels := [{ id := 3 }], stack := [3] }

/-- C7, witness for the amended claim: on the single-output fixture with an
unconstrained toplevel the second set_floating(true) reproduces the first
call's width and x position. -/
theorem c7_set_floating_idem_amended_witness :
    (cwc_container_set_floating env0
        (cwc_container_set_floating env0 w0 c7_cw true).1
        (cwc_container_set_floating env0 w0 c7_cw true).2 true).2.width
      = (cwc_container_set_floating env0 w0 c7_cw true).2.width
    ∧ (cwc_container_set_floating env0
        (cwc_container_set_floating env0 w0 c7_cw true).1
        (cwc_container_set_floating env0 w0 c7_cw true).2 true).2.x
      = (cwc_container_set_floating env0 w0 c7_cw true).2.x := by
  have h := c7_set_floating_idem_amended env0 w0 c7_cw (fun _ _ => rfl) (by decide)
  exact ⟨h.2.2.1, h.1⟩

end ClaimC7

section ClaimC9

@[simp]
theorem id_all_set_size (w : World) (c : Container) (rect : Int × Int)
    (t : Toplevel) :
    (all_toplevel_set_size w c rect t).2.2.id = t.id := by
  unfold all_toplevel_set_size cwc_toplevel_set_size
  dsimp only
  repeat' split
  all_goals simp

theorem updateToplevel_ids (c : Container) (tid : Nat) (f : Toplevel → Toplevel)
    (hf : ∀ t, (f t).id = t.id) :
    (updateToplevel c tid f).toplevels.map Toplevel.id
      = c.toplevels.map Toplevel.id := by
  unfold updateToplevel
  rw [List.map_map]
  apply List.map_congr_left
  intro x _
  by_cases h : (x.id == tid) = true <;> simp [Function.comp, h, hf]

theorem updateToplevel_ids_of_id (c : Container) (tid : Nat) (R : Toplevel)
    (hR : R.id = tid) :
    (updateToplevel c tid (fun _ => R)).toplevels.map Toplevel.id
      = c.toplevels.map Toplevel.id := by
  unfold updateToplevel
  rw [List.map_map]
  apply List.map_congr_left
  intro x _
  by_cases h : (x.id == tid) = true
  · have hx : x.id = tid := by simpa using h
    simp [Function.comp, h, hR, hx]
  · simp [Function.comp, h]

theorem foldl_set_size_ids (l : List Nat) :
    ∀ (w0 : World) (rect : Int × Int) (c0 : Container),
    (l.foldl set_size_fold_step (w0, rect, c0)).2.2.toplevels.map Toplevel.id
      = c0.toplevels.map Toplevel.id := by
  induction l with
  | nil =>
    intro w0 rect c0
    rfl
  | cons a l ih =>
    intro w0 rect c0
    rw [List.foldl_cons]
    have hstep : (set_size_fold_step (w0, rect, c0) a).2.2.toplevels.map Toplevel.id
        = c0.toplevels.map Toplevel.id := by
      unfold set_size_fold_step
      dsimp only
      split
      · rfl
      · rename_i t hf
        have hta : t.id = a := by simpa using List.find?_some hf
        exact updateToplevel_ids_of_id c0 a _
          ((id_all_set_size w0 c0 rect t).trans hta)
    have hres := ih (set_size_fold_step (w0, rect, c0) a).1
      (set_size_fold_step (w0, rect, c0) a).2.1 (set_size_fold_step (w0, rect, c0) a).2.2
    exact hres.trans hstep

theorem border_resize_toplevels (c : Container) (a b : Int) :
    (cwc_border_resize c a b).toplevels = c.toplevels := by
  unfold cwc_border_resize
  repeat' split
  all_goals rfl

theorem border_resize_stack (c : Container) (a b : Int) :
    (cwc_border_resize c a b).stack = c.stack := by
  unfold cwc_border_resize
  repeat' split
  all_goals rfl

theorem border_resize_destroyed (c : Container) (a b : Int) :
    (cwc_border_resize c a b).destroyed = c.destroyed := by
  unfold cwc_border_resize
  repeat' split
  all_goals rfl

theorem save_size_toplevels (w : World) (c : Container) (sw sh : Int) :
    (save_floating_box_size w c sw sh).toplevels = c.toplevels := by
  unfold save_floating_box_size
  split <;> rfl

theorem save_size_stack (w : World) (c : Container) (sw sh : Int) :
    (save_floating_box_size w c sw sh).stack = c.stack := by
  unfold save_floating_box_size
  split <;> rfl

theorem save_size_destroyed (w : World) (c : Container) (sw sh : Int) :
    (save_floating_box_size w c sw sh).destroyed = c.destroyed := by
  unfold save_floating_box_size
  split <;> rfl

/-- cwc_container_set_size keeps membership (by id), the scene stack, the
state bits and the destroyed flag. -/
theorem set_size_ids_etc (env : Env) (w : World) (c : Container) (a b : Int) :
    (cwc_container_set_size env w c a b).2.toplevels.map Toplevel.id
      = c.toplevels.map Toplevel.id
    ∧ (cwc_container_set_size env w c a b).2.stack = c.stack
    ∧ (cwc_container_set_size env w c a b).2.state = c.state
    ∧ (cwc_container_set_size env w c a b).2.destroyed = c.destroyed := by
  rw [set_size_eq]
  obtain ⟨ho, tls, hc, hm⟩ := foldl_set_size_shape c.stack w
    (innerLen env w c a, innerLen env w c b) c
  have hids := foldl_set_size_ids c.stack w (innerLen env w c a, innerLen env w c b) c
  refine ⟨?_, ?_, ?_, ?_⟩
  · dsimp only
    rw [save_size_toplevels, border_resize_toplevels]
    exact hids
  · dsimp only
    rw [save_size_stack, border_resize_stack, hc]
  · dsimp only
    rw [state_save_floating_box_size, state_border_resize, hc]
  · dsimp only
    rw [save_size_destroyed, border_resize_destroyed, hc]

/-- cwc_container_set_front_toplevel keeps membership (by id), state and the
destroyed flag; every stack entry afterwards was already stacked or is the
raised toplevel. -/
theorem set_front_keeps (env : Env) (w : World) (c : Container) (tid : Nat) :
    (cwc_container_set_front_toplevel env w c tid).2.toplevels.map Toplevel.id
      = c.toplevels.map Toplevel.id
    ∧ (cwc_container_set_front_toplevel env w c tid).2.state = c.state
    ∧ (cwc_container_set_front_toplevel env w c tid).2.destroyed = c.destroyed
    ∧ ∀ i ∈ (cwc_container_set_front_toplevel env w c tid).2.stack,
        i ∈ c.stack ∨ i = tid := by
  unfold cwc_container_set_front_toplevel
  split
  · exact ⟨rfl, rfl, rfl, fun i hi => Or.inl hi⟩
  · rename_i t0 hf
    dsimp only
    obtain ⟨h1, h2, h3, h4⟩ := set_size_ids_etc env w
      (updateToplevel c tid
        (fun t => __cwc_toplevel_set_minimized { t with scene_enabled := true } false))
      (updateToplevel c tid
        (fun t => __cwc_toplevel_set_minimized { t with scene_enabled := true } false)).width
      (updateToplevel c tid
        (fun t => __cwc_toplevel_set_minimized { t with scene_enabled := true } false)).height
    refine ⟨?_, ?_, ?_, ?_⟩
    · show ((cwc_container_set_size env w _ _ _).2.toplevels.map _).map Toplevel.id = _
      rw [List.map_map]
      rw [List.map_congr_left (fun x _ => ?_), h1]
      · exact updateToplevel_ids c tid _ (fun t => rfl)
      · by_cases h : (x.id == tid) = true <;>
          simp [Function.comp, h, __cwc_toplevel_set_minimized]
    · show (cwc_container_set_size env w _ _ _).2.state = _
      rw [h3]
      exact state_updateToplevel c tid _
    · show (cwc_container_set_size env w _ _ _).2.destroyed = _
      rw [h4]
      rfl
    · intro i hi
      rw [List.mem_append] at hi
      rcases hi with hi | hi
      · rw [List.mem_filter] at hi
        left
        have := hi.1
        rw [h2] at this
        exact this
      · right
        simpa using hi

/-- Raising a member toplevel puts it at the top of the stack. -/
theorem set_front_front (env : Env) (w : World) (c : Container) (tid : Nat)
    (hmem : tid ∈ c.toplevels.map Toplevel.id) :
    (cwc_container_set_front_toplevel env w c tid).2.stack.getLast? = some tid := by
  obtain ⟨t, ht, e⟩ := List.mem_map.mp hmem
  have hsome : (c.toplevels.find? (fun t2 => t2.id == tid)).isSome :=
    List.find?_isSome.mpr ⟨t, ht, by simp [e]⟩
  obtain ⟨t0, hfind⟩ := Option.isSome_iff_exists.mp hsome
  unfold cwc_container_set_front_toplevel
  rw [hfind]
  dsimp only
  exact List.getLast?_concat _

theorem get_front_id (c : Container) (tid : Nat)
    (hl : c.stack.getLast? = some tid)
    (hmem : tid ∈ c.toplevels.map Toplevel.id) :
    (cwc_container_get_front_toplevel c).map Toplevel.id = some tid := by
  unfold cwc_container_get_front_toplevel
  rw [hl]
  dsimp only
  obtain ⟨t, ht, e⟩ := List.mem_map.mp hmem
  have hsome : (c.toplevels.find? (fun t2 => t2.id == tid)).isSome :=
    List.find?_isSome.mpr ⟨t, ht, by simp [e]⟩
  obtain ⟨t0, hfind⟩ := Option.isSome_iff_exists.mp hsome
  rw [hfind]
  have h0 := List.find?_some hfind
  simp at h0
  simp [h0]

theorem get_front_mem (c : Container) (st : Toplevel)
    (h : cwc_container_get_front_toplevel c = some st) :
    st ∈ c.toplevels := by
  unfold cwc_container_get_front_toplevel at h
  cases hl : c.stack.getLast? with
  | none =>
    rw [hl] at h
    exact absurd h (by simp)
  | some tid =>
    rw [hl] at h
    exact List.mem_of_find?_eq_some h

/-- cwc_container_refresh keeps membership, state, destroyed, and never adds
stack entries. -/
theorem refresh_spec (env : Env) (w : World) (c : Container) :
    (cwc_container_refresh env w c).2.toplevels.map Toplevel.id
      = c.toplevels.map Toplevel.id
    ∧ (cwc_container_refresh env w c).2.state = c.state
    ∧ (cwc_container_refresh env w c).2.destroyed = c.destroyed
    ∧ ∀ i ∈ (cwc_container_refresh env w c).2.stack, i ∈ c.stack := by
  unfold cwc_container_refresh
  split
  · rename_i tid heq
    obtain ⟨h1, h2, h3, h4⟩ := set_front_keeps env w c tid
    refine ⟨h1, h2, h3, fun i hi => ?_⟩
    rcases h4 i hi with h | h
    · exact h
    · subst h
      have hmemo : i ∈ c.stack.getLast? := Option.mem_def.mpr heq
      obtain ⟨hne, he⟩ := List.mem_getLast?_eq_getLast hmemo
      rw [he]
      exact List.getLast_mem hne
  · exact ⟨rfl, rfl, rfl, fun i hi => hi⟩

theorem map_id_filter (l : List Toplevel) (tid : Nat) :
    (l.filter (fun t => t.id != tid)).map Toplevel.id
      = (l.map Toplevel.id).filter (fun i => i != tid) := by
  induction l with
  | nil => rfl
  | cons a l ih =>
    rw [List.map_cons, List.filter_cons, List.filter_cons]
    by_cases h : (a.id != tid) = true
    · rw [if_pos h, if_pos h, List.map_cons, ih]
    · rw [if_neg h, if_neg h, ih]

/-- _clear_container_stuff_in_toplevel removes exactly the given id from the
membership (by id), keeps state and destroyed, keeps the stack inside the
remaining membership (given it was inside before), and hands back the
removed member when the id was present. -/
theorem clear_spec (env : Env) (w : World) (c : Container) (tid : Nat)
    (hsub : ∀ i ∈ c.stack, i ∈ c.toplevels.map Toplevel.id) :
    (_clear_container_stuff_in_toplevel env w c tid).2.1.toplevels.map Toplevel.id
      = (c.toplevels.map Toplevel.id).filter (fun i => i != tid)
    ∧ (_clear_container_stuff_in_toplevel env w c tid).2.1.state = c.state
    ∧ (_clear_container_stuff_in_toplevel env w c tid).2.1.destroyed = c.destroyed
    ∧ (∀ i ∈ (_clear_container_stuff_in_toplevel env w c tid).2.1.stack,
        i ∈ (_clear_container_stuff_in_toplevel env w c tid).2.1.toplevels.map Toplevel.id)
    ∧ (tid ∈ c.toplevels.map Toplevel.id →
        ∃ tr, (_clear_container_stuff_in_toplevel env w c tid).2.2 = some tr
          ∧ tr.id = tid) := by
  unfold _clear_container_stuff_in_toplevel
  dsimp only
  obtain ⟨h1, h2, h3, h4⟩ := refresh_spec env w
    { c with stack := c.stack.filter (fun i => i != tid) }
  refine ⟨?_, h2, h3, ?_, ?_⟩
  · rw [map_id_filter, h1]
  · intro i hi
    rw [map_id_filter, h1]
    have hi2 := h4 i hi
    rw [List.mem_filter] at hi2 ⊢
    exact ⟨hsub i hi2.1, hi2.2⟩
  · intro hmem
    rw [← h1] at hmem
    obtain ⟨t, ht, e⟩ := List.mem_map.mp hmem
    have hsome : ((cwc_container_refresh env w
        { c with stack := c.stack.filter (fun i => i != tid) }).2.toplevels.find?
          (fun t2 => t2.id == tid)).isSome :=
      List.find?_isSome.mpr ⟨t, ht, by simp [e]⟩
    obtain ⟨t0, hfind⟩ := Option.isSome_iff_exists.mp hsome
    refine ⟨t0, hfind, ?_⟩
    have h0 := List.find?_some hfind
    simpa using h0

theorem filter_cons_self (tid : Nat) (M : List Nat) (h : tid ∉ M) :
    (tid :: M).filter (fun i => i != tid) = M := by
  rw [List.filter_cons]
  simp only [bne_self_eq_false, Bool.false_eq_true, if_false]
  apply List.filter_eq_self.mpr
  intro a ha
  simp only [bne_iff_ne, ne_eq]
  intro e
  exact h (e ▸ ha)

/-- The collect phase of cwc_container_swap, generalized over the processed
id list: starting from a container holding exactly those (distinct) ids, it
strips the container bare and appends exactly one toplevel per id to the
array, in order. -/
theorem collect_go (env : Env) (M : List Nat) :
    ∀ (w0 : World) (c0 : Container) (acc : List Toplevel),
    c0.toplevels.map Toplevel.id = M → M.Nodup →
    (∀ i ∈ c0.stack, i ∈ c0.toplevels.map Toplevel.id) →
    (M.foldl
      (fun acc tid =>
        let wct := _clear_container_stuff_in_toplevel env acc.1 acc.2.1 tid
        (wct.1, wct.2.1, acc.2.2 ++ wct.2.2.toList))
      (w0, c0, acc)).2.1.toplevels = []
    ∧ (M.foldl
      (fun acc tid =>
        let wct := _clear_container_stuff_in_toplevel env acc.1 acc.2.1 tid
        (wct.1, wct.2.1, acc.2.2 ++ wct.2.2.toList))
      (w0, c0, acc)).2.1.state = c0.state
    ∧ (M.foldl
      (fun acc tid =>
        let wct := _clear_container_stuff_in_toplevel env acc.1 acc.2.1 tid
        (wct.1, wct.2.1, acc.2.2 ++ wct.2.2.toList))
      (w0, c0, acc)).2.1.destroyed = c0.destroyed
    ∧ (M.foldl
      (fun acc tid =>
        let wct := _clear_container_stuff_in_toplevel env acc.1 acc.2.1 tid
        (wct.1, wct.2.1, acc.2.2 ++ wct.2.2.toList))
      (w0, c0, acc)).2.1.stack = []
    ∧ (M.foldl
      (fun acc tid =>
        let wct := _clear_container_stuff_in_toplevel env acc.1 acc.2.1 tid
        (wct.1, wct.2.1, acc.2.2 ++ wct.2.2.toList))
      (w0, c0, acc)).2.2.map Toplevel.id = acc.map Toplevel.id ++ M := by
  induction M with
  | nil =>
    intro w0 c0 acc hids _ hsub
    have hnil : c0.toplevels = [] := List.map_eq_nil.mp hids
    have hstack : c0.stack = [] := by
      rw [List.eq_nil_iff_forall_not_mem]
      intro i hi
      have := hsub i hi
      rw [hids] at this
      exact absurd this (List.not_mem_nil i)
    exact ⟨hnil, rfl, rfl, hstack, by simp⟩
  | cons tid M ih =>
    intro w0 c0 acc hids hnd hsub
    rw [List.foldl_cons]
    obtain ⟨hc1, hc2, hc3, hc4, hc5⟩ := clear_spec env w0 c0 tid hsub
    have hnd2 := hnd
    rw [List.nodup_cons] at hnd2
    have hids2 : (_clear_container_stuff_in_toplevel env w0 c0 tid).2.1.toplevels.map
        Toplevel.id = M := by
      rw [hc1, hids]
      exact filter_cons_self tid M hnd2.1
    obtain ⟨tr, htr, htrid⟩ := hc5 (by rw [hids]; exact List.mem_cons_self tid M)
    have hrec := ih (_clear_container_stuff_in_toplevel env w0 c0 tid).1
      (_clear_container_stuff_in_toplevel env w0 c0 tid).2.1
      (acc ++ (_clear_container_stuff_in_toplevel env w0 c0 tid).2.2.toList)
      hids2 hnd2.2 hc4
    refine ⟨hrec.1, hrec.2.1.trans hc2, hrec.2.2.1.trans hc3, hrec.2.2.2.1, ?_⟩
    rw [hrec.2.2.2.2, htr]
    simp [htrid]

/-- swap_collect_toplevels on a well-formed container: the container keeps
its state and destroyed flag but is stripped bare, and the array carries
exactly the former members in membership order. -/
theorem swap_collect_spec (env : Env) (w : World) (c : Container)
    (hnd : (c.toplevels.map Toplevel.id).Nodup)
    (hsub : ∀ i ∈ c.stack, i ∈ c.toplevels.map Toplevel.id) :
    (swap_collect_toplevels env w c).2.1.toplevels = []
    ∧ (swap_collect_toplevels env w c).2.1.state = c.state
    ∧ (swap_collect_toplevels env w c).2.1.destroyed = c.destroyed
    ∧ (swap_collect_toplevels env w c).2.1.stack = []
    ∧ (swap_collect_toplevels env w c).2.2.map Toplevel.id
        = c.toplevels.map Toplevel.id := by
  have h := collect_go env (c.toplevels.map Toplevel.id) w c [] rfl hnd hsub
  exact ⟨h.1, h.2.1, h.2.2.1, h.2.2.2.1, by
    have := h.2.2.2.2
    rw [List.map_nil, List.nil_append] at this
    exact this⟩

/-- _cwc_container_insert_toplevel on a managed container prepends to the
membership, appends to the stack, and keeps state and destroyed. -/
theorem insert_keeps (env : Env) (w : World) (c : Container) (t : Toplevel)
    (hu : c.state.unmanaged = false) :
    (_cwc_container_insert_toplevel env w c t).2.toplevels.map Toplevel.id
      = t.id :: c.toplevels.map Toplevel.id
    ∧ (_cwc_container_insert_toplevel env w c t).2.state = c.state
    ∧ (_cwc_container_insert_toplevel env w c t).2.destroyed = c.destroyed
    ∧ (_cwc_container_insert_toplevel env w c t).2.stack = c.stack ++ [t.id] := by
  unfold _cwc_container_insert_toplevel cwc_container_is_unmanaged
    cwc_toplevel_is_unmanaged
  simp only [hu, Bool.or_false, Bool.false_eq_true, if_false]
  obtain ⟨h1, h2, h3, h4⟩ := set_size_ids_etc env w
    { c with toplevels := t :: c.toplevels, stack := c.stack ++ [t.id] }
    c.width c.height
  exact ⟨h1, h3, h4, h2⟩

/-- The insert phase of cwc_container_swap: members arrive reversed at the
head of the membership list, the stack grows by the array's ids in order,
state and destroyed are kept. -/
theorem swap_insert_spec (env : Env) (arr : List Toplevel) :
    ∀ (w0 : World) (c0 : Container), c0.state.unmanaged = false →
    (swap_insert_toplevels env w0 c0 arr).2.toplevels.map Toplevel.id
      = (arr.map Toplevel.id).reverse ++ c0.toplevels.map Toplevel.id
    ∧ (swap_insert_toplevels env w0 c0 arr).2.state = c0.state
    ∧ (swap_insert_toplevels env w0 c0 arr).2.destroyed = c0.destroyed
    ∧ (swap_insert_toplevels env w0 c0 arr).2.stack
        = c0.stack ++ arr.map Toplevel.id := by
  induction arr with
  | nil =>
    intro w0 c0 _
    unfold swap_insert_toplevels
    exact ⟨by simp, rfl, rfl, by simp⟩
  | cons t arr ih =>
    intro w0 c0 hu
    obtain ⟨h1, h2, h3, h4⟩ := insert_keeps env w0 c0 t hu
    have hu2 : (_cwc_container_insert_toplevel env w0 c0 t).2.state.unmanaged
        = false := by
      rw [h2, hu]
    have hrec := ih (_cwc_container_insert_toplevel env w0 c0 t).1
      (_cwc_container_insert_toplevel env w0 c0 t).2 hu2
    have hsplit : cwc_container_insert_toplevel_silence env w0 c0 t
        = ((_cwc_container_insert_toplevel env w0 c0 t).1,
           (_cwc_container_insert_toplevel env w0 c0 t).2) := rfl
    unfold swap_insert_toplevels at hrec ⊢
    rw [List.foldl_cons, hsplit]
    refine ⟨?_, hrec.2.1.trans h2, hrec.2.2.1.trans h3, ?_⟩
    · rw [hrec.1, h1]
      simp
    · rw [hrec.2.2.2, h4]
      simp

/-- C9. For two distinct well-formed containers (unmanaged bit clear,
duplicate-free member ids, scene stack within the membership) with fronts,
cwc_container_swap crosses the two member groups over exactly (as id
multisets), destroys neither container, and raises the former front of each
group in its new container. -/
theorem c9_swap_preserves (env : Env) (w : World) (source target : Container)
    (st tt : Toplevel)
    (hid : (source.id == target.id) = false)
    (hsu : source.state.unmanaged = false)
    (htu : target.state.unmanaged = false)
    (hsn : (source.toplevels.map Toplevel.id).Nodup)
    (htn : (target.toplevels.map Toplevel.id).Nodup)
    (hss : ∀ i ∈ source.stack, i ∈ source.toplevels.map Toplevel.id)
    (hts : ∀ i ∈ target.stack, i ∈ target.toplevels.map Toplevel.id)
    (hsf : cwc_container_get_front_toplevel source = some st)
    (htf : cwc_container_get_front_toplevel target = some tt) :
    ((cwc_container_swap env w source target).2.2.toplevels.map Toplevel.id).Perm
        (source.toplevels.map Toplevel.id)
    ∧ ((cwc_container_swap env w source target).2.1.toplevels.map Toplevel.id).Perm
        (target.toplevels.map Toplevel.id)
    ∧ (cwc_container_swap env w source target).2.1.destroyed = source.destroyed
    ∧ (cwc_container_swap env w source target).2.2.destroyed = target.destroyed
    ∧ (cwc_container_get_front_toplevel
        (cwc_container_swap env w source target).2.2).map Toplevel.id = some st.id
    ∧ (cwc_container_get_front_toplevel
        (cwc_container_swap env w source target).2.1).map Toplevel.id
          = some tt.id := by
  obtain ⟨hS1, hS2, hS3, hS4, hS5⟩ := swap_collect_spec env w source hsn hss
  obtain ⟨hT1, hT2, hT3, hT4, hT5⟩ := swap_collect_spec env
    (swap_collect_toplevels env w source).1 target htn hts
  have hTids : (swap_collect_toplevels env (swap_collect_toplevels env w source).1
      target).2.1.toplevels.map Toplevel.id = [] := by
    rw [hT1]
    rfl
  have hSids : (swap_collect_toplevels env w source).2.1.toplevels.map Toplevel.id
      = [] := by
    rw [hS1]
    rfl
  have hTu2 : (swap_collect_toplevels env (swap_collect_toplevels env w source).1
      target).2.1.state.unmanaged = false := by
    rw [hT2, htu]
  have hSu2 : (swap_collect_toplevels env w source).2.1.state.unmanaged = false := by
    rw [hS2, hsu]
  obtain ⟨hIT1, hIT2, hIT3, hIT4⟩ := swap_insert_spec env
    (swap_collect_toplevels env w source).2.2
    (swap_collect_toplevels env (swap_collect_toplevels env w source).1 target).1
    (swap_collect_toplevels env (swap_collect_toplevels env w source).1 target).2.1
    hTu2
  have hIT1' : (swap_insert_toplevels env
      (swap_collect_toplevels env (swap_collect_toplevels env w source).1 target).1
      (swap_collect_toplevels env (swap_collect_toplevels env w source).1 target).2.1
      (swap_collect_toplevels env w source).2.2).2.toplevels.map Toplevel.id
        = (source.toplevels.map Toplevel.id).reverse := by
    rw [hIT1, hS5, hTids, List.append_nil]
  obtain ⟨hIS1, hIS2, hIS3, hIS4⟩ := swap_insert_spec env
    (swap_collect_toplevels env (swap_collect_toplevels env w source).1 target).2.2
    (swap_insert_toplevels env
      (swap_collect_toplevels env (swap_collect_toplevels env w source).1 target).1
      (swap_collect_toplevels env (swap_collect_toplevels env w source).1 target).2.1
      (swap_collect_toplevels env w source).2.2).1
    (swap_collect_toplevels env w source).2.1
    hSu2
  have hIS1' : (swap_insert_toplevels env
      (swap_insert_toplevels env
        (swap_collect_toplevels env (swap_collect_toplevels env w source).1 target).1
        (swap_collect_toplevels env (swap_collect_toplevels env w source).1 target).2.1
        (swap_collect_toplevels env w source).2.2).1
      (swap_collect_toplevels env w source).2.1
      (swap_collect_toplevels env (swap_collect_toplevels env w source).1 target).2.2).2.toplevels.map
        Toplevel.id = (target.toplevels.map Toplevel.id).reverse := by
    rw [hIS1, hT5, hSids, List.append_nil]
  unfold cwc_container_swap
  simp only [hid, Bool.false_eq_true, if_false]
  rw [hsf, htf]
  dsimp only
  have hstid : st.id ∈ (swap_insert_toplevels env
      (swap_collect_toplevels env (swap_collect_toplevels env w source).1 target).1
      (swap_collect_toplevels env (swap_collect_toplevels env w source).1 target).2.1
      (swap_collect_toplevels env w source).2.2).2.toplevels.map Toplevel.id := by
    rw [hIT1', List.mem_reverse]
    exact List.mem_map_of_mem Toplevel.id (get_front_mem source st hsf)
  have httid : tt.id ∈ (swap_insert_toplevels env
      (swap_insert_toplevels env
        (swap_collect_toplevels env (swap_collect_toplevels env w source).1 target).1
        (swap_collect_toplevels env (swap_collect_toplevels env w source).1 target).2.1
        (swap_collect_toplevels env w source).2.2).1
      (swap_collect_toplevels env w source).2.1
      (swap_collect_toplevels env (swap_collect_toplevels env w source).1 target).2.2).2.toplevels.map
        Toplevel.id := by
    rw [hIS1', List.mem_reverse]
    exact List.mem_map_of_mem Toplevel.id (get_front_mem target tt htf)
  obtain ⟨hFT1, hFT2, hFT3, hFT4⟩ := set_front_keeps env
    (swap_insert_toplevels env
      (swap_insert_toplevels env
        (swap_collect_toplevels env (swap_collect_toplevels env w source).1 target).1
        (swap_collect_toplevels env (swap_collect_toplevels env w source).1 target).2.1
        (swap_collect_toplevels env w source).2.2).1
      (swap_collect_toplevels env w source).2.1
      (swap_collect_toplevels env (swap_collect_toplevels env w source).1 target).2.2).1
    (swap_insert_toplevels env
      (swap_collect_toplevels env (swap_collect_toplevels env w source).1 target).1
      (swap_collect_toplevels env (swap_collect_toplevels env w source).1 target).2.1
      (swap_collect_toplevels env w source).2.2).2
    st.id
  have hFTfront := set_front_front env
    (swap_insert_toplevels env
      (swap_insert_toplevels env
        (swap_collect_toplevels env (swap_collect_toplevels env w source).1 target).1
        (swap_collect_toplevels env (swap_collect_toplevels env w source).1 target).2.1
        (swap_collect_toplevels env w source).2.2).1
      (swap_collect_toplevels env w source).2.1
      (swap_collect_toplevels env (swap_collect_toplevels env w source).1 target).2.2).1
    (swap_insert_toplevels env
      (swap_collect_toplevels env (swap_collect_toplevels env w source).1 target).1
      (swap_collect_toplevels env (swap_collect_toplevels env w source).1 target).2.1
      (swap_collect_toplevels env w source).2.2).2
    st.id hstid
  obtain ⟨hFS1, hFS2, hFS3, hFS4⟩ := set_front_keeps env
    (cwc_container_set_front_toplevel env
      (swap_insert_toplevels env
        (swap_insert_toplevels env
          (swap_collect_toplevels env (swap_collect_toplevels env w source).1 target).1
          (swap_collect_toplevels env (swap_collect_toplevels env w source).1 target).2.1
          (swap_collect_toplevels env w source).2.2).1
        (swap_collect_toplevels env w source).2.1
        (swap_collect_toplevels env (swap_collect_toplevels env w source).1 target).2.2).1
      (swap_insert_toplevels env
        (swap_collect_toplevels env (swap_collect_toplevels env w source).1 target).1
        (swap_collect_toplevels env (swap_collect_toplevels env w source).1 target).2.1
        (swap_collect_toplevels env w source).2.2).2
      st.id).1
    (swap_insert_toplevels env
      (swap_insert_toplevels env
        (swap_collect_toplevels env (swap_collect_toplevels env w source).1 target).1
        (swap_collect_toplevels env (swap_collect_toplevels env w source).1 target).2.1
        (swap_collect_toplevels env w source).2.2).1
      (swap_collect_toplevels env w source).2.1
      (swap_collect_toplevels env (swap_collect_toplevels env w source).1 target).2.2).2
    tt.id
  have hFSfront := set_front_front env
    (cwc_container_set_front_toplevel env
      (swap_insert_toplevels env
        (swap_insert_toplevels env
          (swap_collect_toplevels env (swap_collect_toplevels env w source).1 target).1
          (swap_collect_toplevels env (swap_collect_toplevels env w source).1 target).2.1
          (swap_collect_toplevels env w source).2.2).1
        (swap_collect_toplevels env w source).2.1
        (swap_collect_toplevels env (swap_collect_toplevels env w source).1 target).2.2).1
      (swap_insert_toplevels env
        (swap_collect_toplevels env (swap_collect_toplevels env w source).1 target).1
        (swap_collect_toplevels env (swap_collect_toplevels env w source).1 target).2.1
        (swap_collect_toplevels env w source).2.2).2
      st.id).1
    (swap_insert_toplevels env
      (swap_insert_toplevels env
        (swap_collect_toplevels env (swap_collect_toplevels env w source).1 target).1
        (swap_collect_toplevels env (swap_collect_toplevels env w source).1 target).2.1
        (swap_collect_toplevels env w source).2.2).1
      (swap_collect_toplevels env w source).2.1
      (swap_collect_toplevels env (swap_collect_toplevels env w source).1 target).2.2).2
    tt.id httid
  refine ⟨?_, ?_, ?_, ?_, ?_, ?_⟩
  · rw [hFT1, hIT1']
    exact List.reverse_perm _
  · rw [hFS1, hIS1']
    exact List.reverse_perm _
  · rw [hFS3, hIS3, hS3]
  · rw [hFT3, hIT3, hT3]
  · refine get_front_id _ st.id hFTfront ?_
    rw [hFT1]
    exact hstid
  · refine get_front_id _ tt.id hFSfront ?_
    rw [hFS1]
    exact httid

/-- Source container of the swap witness: one member, id 10. -/
def c9_src : Container :=
  { id := 1, output := 0, toplevels := [{ id := 10 }], stack := [10] }

/-- Target container of the swap witness: one member, id 20. -/
def c9_tgt : Container :=
  { id := 2, output := 0, toplevels := [{ id := 20 }], stack := [20] }

/-- C9, witness: swapping two singleton containers crosses the member ids
over, keeps both containers alive, and makes each group's old front the
front of its new container. -/
theorem c9_swap_preserves_witness :
    ((cwc_container_swap env0 w0 c9_src c9_tgt).2.2.toplevels.map Toplevel.id).Perm
        (c9_src.toplevels.map Toplevel.id)
    ∧ (cwc_container_swap env0 w0 c9_src c9_tgt).2.1.destroyed = false
    ∧ (cwc_container_get_front_toplevel
        (cwc_container_swap env0 w0 c9_src c9_tgt).2.2).map Toplevel.id = some 10
    ∧ (cwc_container_get_front_toplevel
        (cwc_container_swap env0 w0 c9_src c9_tgt).2.1).map Toplevel.id = some 20 := by
  have h := c9_swap_preserves env0 w0 c9_src c9_tgt { id := 10 } { id := 20 }
    (by decide) (by decide) (by decide) (by decide) (by decide)
    (by decide) (by decide) (by decide) (by decide)
  exact ⟨h.1, h.2.2.1, h.2.2.2.2.1, h.2.2.2.2.2⟩

end ClaimC9

section ClaimC6

@[simp]
theorem state_cache_schedule_tag (w : World) (o ws : Nat) :
    (transaction_schedule_tag w o ws).state_cache = w.state_cache := rfl

@[simp]
theorem state_cache_schedule_output (w : World) (o : Nat) :
    (transaction_schedule_output w o).state_cache = w.state_cache := rfl

@[simp]
theorem fallback_schedule_tag (w : World) (o ws : Nat) :
    (transaction_schedule_tag w o ws).fallback = w.fallback := rfl

@[simp]
theorem fallback_schedule_output (w : World) (o : Nat) :
    (transaction_schedule_output w o).fallback = w.fallback := rfl

@[simp]
theorem live_schedule_tag (w : World) (o ws : Nat) :
    (transaction_schedule_tag w o ws).live = w.live := rfl

@[simp]
theorem live_schedule_output (w : World) (o : Nat) :
    (transaction_schedule_output w o).live = w.live := rfl

@[simp]
theorem state_cache_bsp_insert (w : World) (c : Container) (ws : Nat) :
    (bsp_insert_container w c ws).1.state_cache = w.state_cache := rfl

@[simp]
theorem fallback_bsp_insert (w : World) (c : Container) (ws : Nat) :
    (bsp_insert_container w c ws).1.fallback = w.fallback := rfl

@[simp]
theorem live_bsp_insert (w : World) (c : Container) (ws : Nat) :
    (bsp_insert_container w c ws).1.live = w.live := rfl

theorem focus_keeps (w : World) (o : Nat) :
    (cwc_output_focus w o).containers = w.containers
    ∧ (cwc_output_focus w o).state_cache = w.state_cache
    ∧ (cwc_output_focus w o).fallback = w.fallback
    ∧ (cwc_output_focus w o).live = w.live
    ∧ (cwc_output_focus w o).outputs = w.outputs := by
  unfold cwc_output_focus
  repeat' split
  all_goals exact ⟨rfl, rfl, rfl, rfl, rfl⟩

theorem move_restore_world (w : World) (c : Container) (target : Nat) :
    (cwc_container_move_to_output w c target).1.state_cache = w.state_cache
    ∧ (cwc_container_move_to_output w c target).1.fallback = w.fallback
    ∧ (cwc_container_move_to_output w c target).1.live = w.live := by
  unfold cwc_container_move_to_output __cwc_container_move_to_output
    bsp_remove_container
  dsimp only
  repeat' split
  all_goals exact ⟨rfl, rfl, rfl⟩

theorem move_to_tag_world (w : World) (c : Container) (ws : Nat) :
    (cwc_container_move_to_tag w c ws).1.state_cache = w.state_cache
    ∧ (cwc_container_move_to_tag w c ws).1.fallback = w.fallback
    ∧ (cwc_container_move_to_tag w c ws).1.live = w.live := by
  unfold cwc_container_move_to_tag bsp_remove_container
  dsimp only
  repeat' split
  all_goals exact ⟨rfl, rfl, rfl⟩

theorem rescue_one_world (w : World) (c : Container) (source target : Nat) :
    (rescue_one w c source target).1.state_cache = w.state_cache
    ∧ (rescue_one w c source target).1.fallback = w.fallback
    ∧ (rescue_one w c source target).1.live = w.live := by
  unfold rescue_one
  dsimp only
  by_cases h1 : (c.old_prop.output == none) = true
  · by_cases h2 : (source == w.fallback) = true
    · simp only [h1, h2, if_true]
      exact move_restore_world w c target
    · simp only [h1, h2, if_true, Bool.false_eq_true, if_false]
      refine ⟨?_, ?_, ?_⟩
      · exact (move_to_tag_world _ _ _).1.trans (move_restore_world _ _ _).1
      · exact (move_to_tag_world _ _ _).2.1.trans (move_restore_world _ _ _).2.1
      · exact (move_to_tag_world _ _ _).2.2.trans (move_restore_world _ _ _).2.2
  · simp only [h1, Bool.false_eq_true, if_false]
    refine ⟨?_, ?_, ?_⟩
    · exact (move_to_tag_world _ _ _).1.trans (move_restore_world _ _ _).1
    · exact (move_to_tag_world _ _ _).2.1.trans (move_restore_world _ _ _).2.1
    · exact (move_to_tag_world _ _ _).2.2.trans (move_restore_world _ _ _).2.2

/-- Positional access through mapContainersGo: entry i of the result is the
image of entry i of the input under f, run in some intermediate world. -/
theorem mapContainersGo_getElem (f : World → Container → World × Container) :
    ∀ (l : List Container) (w : World) (i : Nat) (c0 : Container),
    l[i]? = some c0 →
    ∃ w2, (mapContainersGo f w l).2[i]? = some (f w2 c0).2 := by
  intro l
  induction l with
  | nil =>
    intro w i c0 h
    exact absurd h (by simp)
  | cons c rest ih =>
    intro w i c0 h
    cases i with
    | zero =>
      rw [List.getElem?_cons_zero] at h
      injection h with h
      subst h
      exact ⟨w, by rw [mapContainersGo, List.getElem?_cons_zero]⟩
    | succ n =>
      rw [List.getElem?_cons_succ] at h
      obtain ⟨w2, hw2⟩ := ih (f w c).1 n c0 h
      refine ⟨w2, ?_⟩
      rw [mapContainersGo, List.getElem?_cons_succ]
      exact hw2

/-- Positional access through mapContainersGo carrying a world invariant
(preserved by every step of f) to the intermediate world. -/
theorem mapContainersGo_getElem_inv (f : World → Container → World × Container)
    (P : World → Prop) (hf : ∀ w c, P w → P (f w c).1) :
    ∀ (l : List Container) (w : World) (i : Nat) (c0 : Container),
    P w → l[i]? = some c0 →
    ∃ w2, P w2 ∧ (mapContainersGo f w l).2[i]? = some (f w2 c0).2 := by
  intro l
  induction l with
  | nil =>
    intro w i c0 _ h
    exact absurd h (by simp)
  | cons c rest ih =>
    intro w i c0 hP h
    cases i with
    | zero =>
      rw [List.getElem?_cons_zero] at h
      injection h with h
      subst h
      exact ⟨w, hP, by rw [mapContainersGo, List.getElem?_cons_zero]⟩
    | succ n =>
      rw [List.getElem?_cons_succ] at h
      obtain ⟨w2, hw2P, hw2⟩ := ih (f w c).1 n c0 (hf w c hP) h
      refine ⟨w2, hw2P, ?_⟩
      rw [mapContainersGo, List.getElem?_cons_succ]
      exact hw2

theorem mapContainersGo_state_cache (f : World → Container → World × Container)
    (hf : ∀ w c, (f w c).1.state_cache = w.state_cache) :
    ∀ (l : List Container) (w : World),
    (mapContainersGo f w l).1.state_cache = w.state_cache := by
  intro l
  induction l with
  | nil =>
    intro w
    rfl
  | cons c rest ih =>
    intro w
    rw [mapContainersGo]
    exact (ih (f w c).1).trans (hf w c)

theorem mapContainersGo_fallback (f : World → Container → World × Container)
    (hf : ∀ w c, (f w c).1.fallback = w.fallback) :
    ∀ (l : List Container) (w : World),
    (mapContainersGo f w l).1.fallback = w.fallback := by
  intro l
  induction l with
  | nil =>
    intro w
    rfl
  | cons c rest ih =>
    intro w
    rw [mapContainersGo]
    exact (ih (f w c).1).trans (hf w c)

theorem mapContainersGo_live (f : World → Container → World × Container)
    (hf : ∀ w c, (f w c).1.live = w.live) :
    ∀ (l : List Container) (w : World),
    (mapContainersGo f w l).1.live = w.live := by
  intro l
  induction l with
  | nil =>
    intro w
    rfl
  | cons c rest ih =>
    intro w
    rw [mapContainersGo]
    exact (ih (f w c).1).trans (hf w c)

/-- Moving a container that remembers an old placement: the strategy handle
is surrendered, the target's active tag and workspace are adopted, and no
tree insertion happens (the remembered placement blocks it). -/
theorem move_to_output_some_old (w : World) (c : Container) (target old : Nat)
    (hop : c.old_prop.output = some old)
    (hct : (c.output == target) = false) :
    (cwc_container_move_to_output w c target).2
      = { c with
          output := target
          tag := (w.outputs target).state.active_tag
          workspace := (w.outputs target).state.active_workspace
          bsp_node := none } := by
  have hg : (c.old_prop.output == none) = false := by
    rw [hop]
    rfl
  unfold cwc_container_move_to_output __cwc_container_move_to_output
    bsp_remove_container
  dsimp only
  rw [if_neg (by simp [hct])]
  split
  · simp only [hg, Bool.and_false, Bool.false_eq_true, if_false]
  · rename_i hb
    have hbn : c.bsp_node = none := by
      cases hx : c.bsp_node
      · rfl
      · rw [hx] at hb
        exact absurd rfl hb
    simp only [hg, Bool.and_false, Bool.false_eq_true, if_false]
    rw [hbn]

/-- rescue_one for a container with no remembered placement, rescued from a
non-fallback source it does not already sit on: the origin is recorded in
old_prop and the container lands on the target (with some adopted tag,
workspace and handle). -/
theorem rescue_one_shape (w : World) (c : Container) (source target : Nat)
    (hop : c.old_prop = {})
    (hsrc : (source == w.fallback) = false)
    (hct : (c.output == target) = false) :
    ∃ T WS B, (rescue_one w c source target).2
      = { c with
          output := target
          tag := T
          workspace := WS
          bsp_node := B
          old_prop := { output := some source, bsp_node := c.bsp_node,
                        workspace := c.workspace, tag := c.tag } } := by
  have hg1 : (c.old_prop.output == none) = true := by
    rw [hop]
    rfl
  have hg2 : ∀ s : Nat, ((some s : Option Nat) == none) = false := fun s => rfl
  unfold rescue_one cwc_container_move_to_output __cwc_container_move_to_output
    cwc_container_move_to_tag bsp_remove_container
  dsimp only
  simp only [hg1, hg2, hsrc, hct, Bool.and_false, Bool.false_eq_true, if_false,
    if_true, Option.isSome_none]
  repeat' split
  all_goals exact ⟨_, _, _, rfl⟩

/-- rescue_one from the fallback output: the origin is not recorded — the
container only moves (old placement left empty). -/
theorem rescue_one_fb_shape (w : World) (c : Container) (source target : Nat)
    (hop : c.old_prop = {})
    (hsrc : (source == w.fallback) = true)
    (hct : (c.output == target) = false) :
    ∃ T WS B, (rescue_one w c source target).2
      = { c with
          output := target
          tag := T
          workspace := WS
          bsp_node := B } := by
  have hg1 : (c.old_prop.output == none) = true := by
    rw [hop]
    rfl
  unfold rescue_one cwc_container_move_to_output __cwc_container_move_to_output
    bsp_remove_container
  dsimp only
  simp only [hg1, hsrc, hct, Bool.false_eq_true, if_false, if_true]
  repeat' split
  all_goals first
    | exact ⟨_, _, _, rfl⟩
    | (rename_i hb _
       have hbn : c.bsp_node = none := by
         cases hx : c.bsp_node
         · rfl
         · rw [hx] at hb
           exact absurd rfl hb
       exact ⟨_, _, _, by rw [← hbn]⟩)

/-- The destroy phase of the round trip with a single live output: the state
is cached under the output's name, the fallback adopts every container of
the destroyed output (recording its origin, workspace, tag and handle in
old_prop), and containers already on the fallback are untouched. -/
theorem c6_destroy_spec (env : Env) (w : World) (o : Nat) (i j : Nat)
    (c d : Container)
    (hlive : w.live = [o])
    (hofb : o ≠ w.fallback)
    (hci : w.containers[i]? = some c)
    (hco : c.output = o)
    (hcop : c.old_prop = {})
    (hdj : w.containers[j]? = some d)
    (hdo : d.output = w.fallback) :
    (∃ T WS B, (on_output_destroy env w o).containers[i]?
        = some { c with
            output := w.fallback
            tag := T
            workspace := WS
            bsp_node := B
            old_prop := { output := some o, bsp_node := c.bsp_node,
                          workspace := c.workspace, tag := c.tag } })
    ∧ (on_output_destroy env w o).containers[j]? = some d
    ∧ (on_output_destroy env w o).state_cache
        = ((w.outputs o).name, o) :: w.state_cache
    ∧ (on_output_destroy env w o).fallback = w.fallback := by
  have hofb2 : (o == w.fallback) = false := by simp [hofb]
  have hga : cwc_output_get_other_available_output (cwc_output_state_save w o) o
      = (cwc_output_state_save w o, w.fallback) := by
    unfold cwc_output_get_other_available_output
    have hlv : (cwc_output_state_save w o).live = [o] := hlive
    rw [hlv]
    simp
    rfl
  have hfF : ∀ (w2 : World) (c2 : Container),
      ((fun (w2 : World) (c2 : Container) =>
        if c2.output == o then rescue_one w2 c2 o w.fallback else (w2, c2)) w2 c2).1.fallback
        = w2.fallback := by
    intro w2 c2
    dsimp only
    split
    · exact (rescue_one_world w2 c2 o w.fallback).2.1
    · rfl
  have hfS : ∀ (w2 : World) (c2 : Container),
      ((fun (w2 : World) (c2 : Container) =>
        if c2.output == o then rescue_one w2 c2 o w.fallback else (w2, c2)) w2 c2).1.state_cache
        = w2.state_cache := by
    intro w2 c2
    dsimp only
    split
    · exact (rescue_one_world w2 c2 o w.fallback).1
    · rfl
  have hP0 : (cwc_output_focus (cwc_output_state_save w o) w.fallback).fallback
      = w.fallback :=
    (focus_keeps (cwc_output_state_save w o) w.fallback).2.2.1
  obtain ⟨w2, hw2P, hw2e⟩ := mapContainersGo_getElem_inv
    (fun w2 c2 => if c2.output == o then rescue_one w2 c2 o w.fallback else (w2, c2))
    (fun w2 => w2.fallback = w.fallback)
    (fun w2 c2 h => (hfF w2 c2).trans h) w.containers
    (cwc_output_focus (cwc_output_state_save w o) w.fallback) i c hP0 hci
  obtain ⟨w3, _, hw3e⟩ := mapContainersGo_getElem_inv
    (fun w2 c2 => if c2.output == o then rescue_one w2 c2 o w.fallback else (w2, c2))
    (fun w2 => w2.fallback = w.fallback)
    (fun w2 c2 h => (hfF w2 c2).trans h) w.containers
    (cwc_output_focus (cwc_output_state_save w o) w.fallback) j d hP0 hdj
  have hci2 : ((fun (w2 : World) (c2 : Container) =>
      if c2.output == o then rescue_one w2 c2 o w.fallback else (w2, c2)) w2 c).2
      = (rescue_one w2 c o w.fallback).2 := by
    dsimp only
    rw [if_pos (by rw [hco]; simp)]
  have hdj2 : ((fun (w2 : World) (c2 : Container) =>
      if c2.output == o then rescue_one w2 c2 o w.fallback else (w2, c2)) w3 d).2
      = d := by
    dsimp only
    rw [if_neg (by rw [hdo]; simp [Ne.symm hofb])]
  obtain ⟨T, WS, B, hres⟩ := rescue_one_shape w2 c o w.fallback hcop
    (by rw [hw2P]; exact hofb2) (by rw [hco]; exact hofb2)
  rw [hci2, hres] at hw2e
  rw [hdj2] at hw3e
  have hmapfb : (mapContainersGo
      (fun w2 c2 => if c2.output == o then rescue_one w2 c2 o w.fallback else (w2, c2))
      (cwc_output_focus (cwc_output_state_save w o) w.fallback)
      w.containers).1.fallback = w.fallback :=
    (mapContainersGo_fallback _ hfF w.containers _).trans hP0
  have hmapsc : (mapContainersGo
      (fun w2 c2 => if c2.output == o then rescue_one w2 c2 o w.fallback else (w2, c2))
      (cwc_output_focus (cwc_output_state_save w o) w.fallback)
      w.containers).1.state_cache = ((w.outputs o).name, o) :: w.state_cache :=
    (mapContainersGo_state_cache _ hfS w.containers _).trans
      ((focus_keeps (cwc_output_state_save w o) w.fallback).2.1)
  unfold on_output_destroy cwc_output_rescue_toplevel_container mapContainers
  dsimp only
  rw [hga]
  dsimp only
  rw [if_neg (show ¬((o == w.fallback) = true) by simp [hofb2])]
  rw [(focus_keeps (cwc_output_state_save w o) w.fallback).1]
  rw [show (cwc_output_state_save w o).containers = w.containers from rfl]
  rw [hmapfb]
  simp only [bne_self_eq_false, Bool.false_eq_true, if_false]
  exact ⟨⟨T, WS, B, hw2e⟩, hw3e, hmapsc, rfl⟩

/-- cwc_output_restore: a container remembering the old output reclaims its
workspace, tag and strategy handle on the new output and forgets the old
placement; a container with no remembered placement is untouched; the
fallback designation is unchanged. -/
theorem cwc_output_restore_spec (env : Env) (w : World) (output old : Nat)
    (k : Nat) (ck : Container) (hk : w.containers[k]? = some ck) :
    (ck.old_prop.output = some old → (ck.output == output) = false →
        (cwc_output_restore env w output old).containers[k]?
          = some { ck with
              output := output
              tag := ck.old_prop.tag
              workspace := ck.old_prop.workspace
              bsp_node := ck.old_prop.bsp_node
              old_prop := {} })
    ∧ (ck.old_prop.output = none →
        (cwc_output_restore env w output old).containers[k]? = some ck)
    ∧ (cwc_output_restore env w output old).fallback = w.fallback := by
  have hfF : ∀ (w2 : World) (c2 : Container),
      ((fun (w2 : World) (c2 : Container) =>
        if c2.old_prop.output == some old then
          ((cwc_container_move_to_output w2 c2 output).1,
           { (cwc_container_move_to_output w2 c2 output).2 with
              bsp_node := c2.old_prop.bsp_node
              tag := c2.old_prop.tag
              workspace := c2.old_prop.workspace
              old_prop := {} })
        else (w2, c2)) w2 c2).1.fallback = w2.fallback := by
    intro w2 c2
    dsimp only
    split
    · exact (move_restore_world w2 c2 output).2.1
    · rfl
  obtain ⟨w2, hw2⟩ := mapContainersGo_getElem
    (fun w2 c2 =>
      if c2.old_prop.output == some old then
        ((cwc_container_move_to_output w2 c2 output).1,
         { (cwc_container_move_to_output w2 c2 output).2 with
            bsp_node := c2.old_prop.bsp_node
            tag := c2.old_prop.tag
            workspace := c2.old_prop.workspace
            old_prop := {} })
      else (w2, c2))
    w.containers w k ck hk
  unfold cwc_output_restore mapContainers
  dsimp only
  refine ⟨fun hop hct => ?_, fun hop => ?_, ?_⟩
  · rw [hw2]
    dsimp only
    rw [if_pos (by rw [hop]; simp)]
    rw [move_to_output_some_old w2 ck output old hop hct]
  · rw [hw2]
    dsimp only
    rw [if_neg (by rw [hop]; simp)]
  · exact mapContainersGo_fallback _ hfF w.containers w

/-- cwc_output_rescue_toplevel_container leaves a container that is not on
the source output untouched. -/
theorem rescue_spec_untouched (w : World) (source target : Nat) (k : Nat)
    (ck : Container)
    (hgdiff : (source == target) = false)
    (hk : w.containers[k]? = some ck)
    (hnot : (ck.output == source) = false) :
    (cwc_output_rescue_toplevel_container w source target).containers[k]?
      = some ck := by
  obtain ⟨w2, hw2⟩ := mapContainersGo_getElem
    (fun w2 c2 =>
      if c2.output == source then rescue_one w2 c2 source target else (w2, c2))
    w.containers w k ck hk
  unfold cwc_output_rescue_toplevel_container mapContainers
  rw [if_neg (show ¬((source == target) = true) by simp [hgdiff])]
  dsimp only
  rw [hw2]
  rw [if_neg (by simp [hnot])]

/-- cwc_output_rescue_toplevel_container from the fallback source: a
container of the source moves to the target without recording an origin. -/
theorem rescue_spec_fb_moved (w : World) (source target : Nat) (k : Nat)
    (ck : Container)
    (hgdiff : (source == target) = false)
    (hk : w.containers[k]? = some ck)
    (hx : ck.output = source)
    (hop : ck.old_prop = {})
    (hsfb : source = w.fallback)
    (hct : (ck.output == target) = false) :
    ∃ T WS B, (cwc_output_rescue_toplevel_container w source target).containers[k]?
      = some { ck with
          output := target
          tag := T
          workspace := WS
          bsp_node := B } := by
  have hfF : ∀ (w2 : World) (c2 : Container),
      ((fun (w2 : World) (c2 : Container) =>
        if c2.output == source then rescue_one w2 c2 source target
        else (w2, c2)) w2 c2).1.fallback = w2.fallback := by
    intro w2 c2
    dsimp only
    split
    · exact (rescue_one_world w2 c2 source target).2.1
    · rfl
  obtain ⟨w2, hw2P, hw2⟩ := mapContainersGo_getElem_inv
    (fun w2 c2 =>
      if c2.output == source then rescue_one w2 c2 source target else (w2, c2))
    (fun w2 => w2.fallback = w.fallback)
    (fun w2 c2 h => (hfF w2 c2).trans h) w.containers w k ck rfl hk
  obtain ⟨T, WS, B, hres⟩ := rescue_one_fb_shape w2 ck source target hop
    (by rw [hw2P, hsfb]; simp) hct
  refine ⟨T, WS, B, ?_⟩
  unfold cwc_output_rescue_toplevel_container mapContainers
  rw [if_neg (show ¬((source == target) = true) by simp [hgdiff])]
  dsimp only
  rw [hw2]
  rw [if_pos (by rw [hx]; simp), hres]

/-- cwc_output_create, when the restoration cache holds the output's name at
its head, reduces to cwc_output_restore plus output-state and cache
bookkeeping that touches neither containers nor the fallback. -/
theorem cwc_output_create_key (env : Env) (w : World) (nid : Nat) (nm : String)
    (ww wh : Int) (o : Nat) (sc0 : List (String × Nat))
    (hsc : w.state_cache = (nm, o) :: sc0) :
    ∃ G F K, cwc_output_create env w nid nm ww wh
      = { (cwc_output_restore env { w with outputs := G } nid o) with
          state_cache := K
          outputs := F } := by
  unfold cwc_output_create cwc_output_state_try_restore
  dsimp only
  simp only [Function.update_same]
  rw [hsc]
  simp only [List.lookup, beq_self_eq_true]
  exact ⟨_, _, _, rfl⟩

/-- cwc_output_create with a cached state for its name: containers
remembering the cached old output are restored, containers with no
remembered placement are untouched, the fallback designation is kept. -/
theorem cwc_output_create_spec (env : Env) (w : World) (nid : Nat) (nm : String)
    (ww wh : Int) (o : Nat) (sc0 : List (String × Nat))
    (hsc : w.state_cache = (nm, o) :: sc0)
    (k : Nat) (ck : Container) (hk : w.containers[k]? = some ck) :
    (ck.old_prop.output = some o → (ck.output == nid) = false →
        (cwc_output_create env w nid nm ww wh).containers[k]?
          = some { ck with
              output := nid
              tag := ck.old_prop.tag
              workspace := ck.old_prop.workspace
              bsp_node := ck.old_prop.bsp_node
              old_prop := {} })
    ∧ (ck.old_prop.output = none →
        (cwc_output_create env w nid nm ww wh).containers[k]? = some ck)
    ∧ (cwc_output_create env w nid nm ww wh).fallback = w.fallback := by
  obtain ⟨G, F, K, hkey⟩ := cwc_output_create_key env w nid nm ww wh o sc0 hsc
  rw [hkey]
  have hres := cwc_output_restore_spec env { w with outputs := G } nid o k ck hk
  exact ⟨fun hop hct => hres.1 hop hct, fun hop => hres.2.1 hop, hres.2.2⟩

@[simp]
theorem containers_schedule_tag (w : World) (o ws : Nat) :
    (transaction_schedule_tag w o ws).containers = w.containers := rfl

/-- C6. Round trip on a single-output layout: destroying the only live output
and creating a new one with the same name restores each of its containers
onto the new output with its prior workspace, tag and strategy (BSP) handle
intact — no container changes workspace — while a container that sat on the
fallback output is excluded from the restoration: the rescue from the
fallback records no origin, so the container is merely moved onto the new
output without any remembered placement to honour. -/
theorem c6_round_trip (env : Env) (w : World) (o nid : Nat) (ww wh : Int)
    (i j : Nat) (c d : Container)
    (hlive : w.live = [o])
    (hofb : o ≠ w.fallback)
    (hnfb : nid ≠ w.fallback)
    (hci : w.containers[i]? = some c)
    (hco : c.output = o)
    (hcop : c.old_prop = {})
    (hdj : w.containers[j]? = some d)
    (hdo : d.output = w.fallback)
    (hdop : d.old_prop = {}) :
    (on_new_output env (on_output_destroy env w o) nid ((w.outputs o).name)
        ww wh).containers[i]? = some { c with output := nid }
    ∧ ∃ T WS B, (on_new_output env (on_output_destroy env w o) nid
        ((w.outputs o).name) ww wh).containers[j]?
      = some { d with
          output := nid
          tag := T
          workspace := WS
          bsp_node := B } := by
  obtain ⟨⟨T, WS, B, hW1i⟩, hW1j, hW1sc, hW1fb⟩ :=
    c6_destroy_spec env w o i j c d hlive hofb hci hco hcop hdj hdo
  have hnfb2 : (w.fallback == nid) = false := by simp [Ne.symm hnfb]
  have hcrA := cwc_output_create_spec env (on_output_destroy env w o) nid
    ((w.outputs o).name) ww wh o w.state_cache hW1sc i
    ({ c with
        output := w.fallback
        tag := T
        workspace := WS
        bsp_node := B
        old_prop := { output := some o, bsp_node := c.bsp_node,
                      workspace := c.workspace, tag := c.tag } }) hW1i
  have hAi := hcrA.1 rfl hnfb2
  have hAi2 : (cwc_output_create env (on_output_destroy env w o) nid
      ((w.outputs o).name) ww wh).containers[i]?
      = some { c with output := nid } := by
    rw [hAi]
    rw [hcop]
  have hfbA : (cwc_output_create env (on_output_destroy env w o) nid
      ((w.outputs o).name) ww wh).fallback = w.fallback :=
    hcrA.2.2.trans hW1fb
  have hgdiff : ((cwc_output_create env (on_output_destroy env w o) nid
      ((w.outputs o).name) ww wh).fallback == nid) = false := by
    rw [hfbA]
    exact hnfb2
  have hBi := rescue_spec_untouched
    (cwc_output_create env (on_output_destroy env w o) nid
      ((w.outputs o).name) ww wh)
    ((cwc_output_create env (on_output_destroy env w o) nid
      ((w.outputs o).name) ww wh).fallback)
    nid i ({ c with output := nid }) hgdiff hAi2
    (show (nid == (cwc_output_create env (on_output_destroy env w o) nid
      ((w.outputs o).name) ww wh).fallback) = false by
      rw [hfbA]
      simp [hnfb])
  have hAj := (cwc_output_create_spec env (on_output_destroy env w o) nid
    ((w.outputs o).name) ww wh o w.state_cache hW1sc j d hW1j).2.1
    (by rw [hdop])
  have hct : (d.output == nid) = false := by
    rw [hdo]
    exact hnfb2
  have hx : d.output = (cwc_output_create env (on_output_destroy env w o) nid
      ((w.outputs o).name) ww wh).fallback :=
    hdo.trans hfbA.symm
  obtain ⟨T2, WS2, B2, hBj⟩ := rescue_spec_fb_moved
    (cwc_output_create env (on_output_destroy env w o) nid
      ((w.outputs o).name) ww wh)
    ((cwc_output_create env (on_output_destroy env w o) nid
      ((w.outputs o).name) ww wh).fallback)
    nid j d hgdiff hAj hx hdop rfl hct
  refine ⟨?_, T2, WS2, B2, ?_⟩
  · unfold on_new_output
    dsimp only
    split
    · rw [(focus_keeps _ nid).1]
      rw [containers_schedule_tag]
      dsimp only
      exact hBi
    · rw [containers_schedule_tag]
      dsimp only
      exact hBi
  · unfold on_new_output
    dsimp only
    split
    · rw [(focus_keeps _ nid).1]
      rw [containers_schedule_tag]
      dsimp only
      exact hBj
    · rw [containers_schedule_tag]
      dsimp only
      exact hBj

/-- A container on the to-be-destroyed output 1, placed on workspace 3 with
tag 4 and no remembered placement. -/
def c6c : Container :=
  { id := 10
    output := 1
    workspace := 3
    tag := 4 }

/-- A container sitting on the fallback output 0. -/
def c6d : Container :=
  { id := 11
    output := 0 }

/-- A world whose only live output is 1, holding c6c on it and c6d on the
fallback. -/
def c6w : World :=
  { outputs := fun _ => { state := { tag_info := fun _ => {} } }
    live := [1]
    fallback := 0
    containers := [c6c, c6d] }

theorem c6_round_trip_witness :
    (c6w.live = [1] ∧ (1 : Nat) ≠ c6w.fallback ∧ (2 : Nat) ≠ c6w.fallback
      ∧ c6w.containers[0]? = some c6c ∧ c6c.output = 1 ∧ c6c.old_prop = {}
      ∧ c6w.containers[1]? = some c6d ∧ c6d.output = c6w.fallback
      ∧ c6d.old_prop = {})
    ∧ ((on_new_output env0 (on_output_destroy env0 c6w 1) 2
          ((c6w.outputs 1).name) 100 100).containers[0]?
        = some { c6c with output := 2 }
      ∧ ∃ T WS B, (on_new_output env0 (on_output_destroy env0 c6w 1) 2
          ((c6w.outputs 1).name) 100 100).containers[1]?
        = some { c6d with
            output := 2
            tag := T
            workspace := WS
            bsp_node := B }) :=
  ⟨⟨rfl, by decide, by decide, by decide, rfl, rfl, by decide, rfl, rfl⟩,
   c6_round_trip env0 c6w 1 2 100 100 0 1 c6c c6d rfl (by decide) (by decide)
     (by decide) rfl rfl (by decide) rfl rfl⟩

end ClaimC6

end Cwc
